import Mathlib

/-!
Shallow embedding of the stealth-pursuit simulation core
(client/src/systems/noise.ts, client/src/systems/detection.ts,
client/src/ai/prey.ts, client/src/input/controls.ts and the per-tick
orchestration in client/src/main.ts), together with theorems settling the
specification claims about it.

Modelling conventions:
* JavaScript numbers are modelled as real numbers; `Math.sqrt`/`Math.hypot`
  become `Real.sqrt`, `Math.sin`/`Math.cos` become `Real.sin`/`Real.cos`, and
  `Math.atan2 y x` becomes the argument of the complex number `x + y*I`
  (both have range (-pi, pi] and send (0,0) to 0).
* `Math.random()` draws are passed in explicitly (a single real, or a stream
  indexed by the target's position in the input list), so every behaviour of
  the original code corresponds to some choice of these parameters.
* `performance.now()` is passed in as an explicit `nowMs` parameter; the
  handful of calls inside one tick are modelled as reading one timestamp.
* Nullable fields (`number | null`, optional fields) become `Option ℝ`;
  JavaScript truthiness tests on them (`x && ...`, `x || d`, `x ?? d`) are
  modelled exactly, including the fact that the number 0 is falsy.
* Mutating loops become `List.foldl`, early-`return`/`continue` loops become
  `List.filterMap` or an existential over the list.
-/

attribute [instance] Classical.propDecidable

noncomputable section

namespace StealthSim

/-- 2D vector, `Vector2D` from state/store.ts. -/
structure Vec2 where
  x : ℝ
  y : ℝ

/-- `Math.hypot dx dy`. -/
def hypot (x y : ℝ) : ℝ := Real.sqrt (x ^ 2 + y ^ 2)

/-- `EnvironmentZone` from state/store.ts (id and type tag omitted: the
embedded functions never read them). -/
structure EnvironmentZone where
  x : ℝ
  y : ℝ
  width : ℝ
  height : ℝ
  noiseSuppression : ℝ

instance : Inhabited EnvironmentZone := ⟨⟨0, 0, 0, 0, 0⟩⟩

/-- `ObstacleRect` from state/store.ts (id omitted). -/
structure ObstacleRect where
  x : ℝ
  y : ℝ
  width : ℝ
  height : ℝ

/-- `Ship` from state/store.ts, restricted to the fields the simulation core
reads or writes (display-only fields are omitted).  Optional TS fields are
`Option ℝ`. -/
structure Ship where
  id : String
  position : Vec2
  velocity : Vec2
  headingRadians : ℝ
  baseNoise : ℝ
  thrustNoise : ℝ
  weaponsNoise : ℝ
  moduleNoise : ℝ
  suppression : ℝ
  niRaw : ℝ
  niSmooth : ℝ
  lastPingDetectedAt : Option ℝ
  lastDecoyAt : Option ℝ
  detectabilityBaseMeters : Option ℝ
  maxSpeed : Option ℝ
  accel : Option ℝ

/-! ## systems/noise.ts -/

/-- `isPointInsideZone` from systems/noise.ts. -/
def isPointInsideZone (point : Vec2) (zone : EnvironmentZone) : Prop :=
  point.x ≥ zone.x ∧ point.x ≤ zone.x + zone.width ∧
  point.y ≥ zone.y ∧ point.y ≤ zone.y + zone.height

/-- `environmentSuppressionAt` from systems/noise.ts: accumulate
`noiseSuppression` over the zones containing the point, then clamp to
[0, 0.9]. -/
def environmentSuppressionAt (point : Vec2) (zones : List EnvironmentZone) : ℝ :=
  let totalSuppression :=
    zones.foldl
      (fun acc zone => if isPointInsideZone point zone then acc + zone.noiseSuppression else acc) 0
  max 0 (min 0.9 totalSuppression)

/-- `computeNoiseIndexRaw` from systems/noise.ts. -/
def computeNoiseIndexRaw (ship : Ship) (zones : List EnvironmentZone) : ℝ :=
  let envSuppression := environmentSuppressionAt ship.position zones
  let base := ship.baseNoise + ship.thrustNoise + ship.weaponsNoise + ship.moduleNoise
  let suppressed := base * (1 - envSuppression) * (1 - ship.suppression)
  max 0 (min 1.5 suppressed)

/-- `smoothNoise` from systems/noise.ts. -/
def smoothNoise (previous current alpha : ℝ) : ℝ :=
  let clampedAlpha := max 0.01 (min 1 alpha)
  previous + (current - previous) * clampedAlpha

/-- Loop body of `resolveCollisions` from systems/noise.ts: one obstacle
rectangle applied to the running corrected position. -/
def resolveCollisionsStep (corrected : Vec2) (r : ObstacleRect) : Vec2 :=
  if corrected.x ≥ r.x ∧ corrected.x ≤ r.x + r.width ∧
     corrected.y ≥ r.y ∧ corrected.y ≤ r.y + r.height then
    let dx1 := |r.x - corrected.x|
    let dx2 := |r.x + r.width - corrected.x|
    let dy1 := |r.y - corrected.y|
    let dy2 := |r.y + r.height - corrected.y|
    let minX := if dx1 < dx2 then r.x - 0.01 else r.x + r.width + 0.01
    let minY := if dy1 < dy2 then r.y - 0.01 else r.y + r.height + 0.01
    let penX := min dx1 dx2
    let penY := min dy1 dy2
    if penX < penY then { corrected with x := minX } else { corrected with y := minY }
  else corrected

/-- `resolveCollisions` from systems/noise.ts (the `position` argument is
unused in the source as well). -/
def resolveCollisions (position next : Vec2) (obstacles : List ObstacleRect) : Vec2 :=
  obstacles.foldl resolveCollisionsStep next

/-- Result record of `resolveCollisionsWithVelocity`. -/
structure CollisionResult where
  nextPos : Vec2
  nextVel : Vec2

/-- Loop body of `resolveCollisionsWithVelocity` from systems/noise.ts. -/
def resolveWithVelocityStep (state : CollisionResult) (r : ObstacleRect) : CollisionResult :=
  let corrected := state.nextPos
  if corrected.x ≥ r.x ∧ corrected.x ≤ r.x + r.width ∧
     corrected.y ≥ r.y ∧ corrected.y ≤ r.y + r.height then
    let dxLeft := corrected.x - r.x
    let dxRight := r.x + r.width - corrected.x
    let dyTop := corrected.y - r.y
    let dyBottom := r.y + r.height - corrected.y
    let penX := min dxLeft dxRight
    let penY := min dyTop dyBottom
    if penX < penY then
      { nextPos := { corrected with x := if dxLeft < dxRight then r.x - 0.01 else r.x + r.width + 0.01 }
        nextVel := { state.nextVel with x := 0 } }
    else
      { nextPos := { corrected with y := if dyTop < dyBottom then r.y - 0.01 else r.y + r.height + 0.01 }
        nextVel := { state.nextVel with y := 0 } }
  else state

/-- `resolveCollisionsWithVelocity` from systems/noise.ts. -/
def resolveCollisionsWithVelocity (position next velocity : Vec2)
    (obstacles : List ObstacleRect) : CollisionResult :=
  obstacles.foldl resolveWithVelocityStep { nextPos := next, nextVel := velocity }

/-- `clampToWorldBoundsWithVelocity` from systems/noise.ts. -/
def clampToWorldBoundsWithVelocity (next velocity : Vec2) (worldWidth worldHeight : ℝ) :
    CollisionResult :=
  let s1 : CollisionResult :=
    if next.x < 0 then
      { nextPos := { next with x := 0 }, nextVel := { velocity with x := 0 } }
    else if next.x > worldWidth then
      { nextPos := { next with x := worldWidth }, nextVel := { velocity with x := 0 } }
    else { nextPos := next, nextVel := velocity }
  if s1.nextPos.y < 0 then
    { nextPos := { s1.nextPos with y := 0 }, nextVel := { s1.nextVel with y := 0 } }
  else if s1.nextPos.y > worldHeight then
    { nextPos := { s1.nextPos with y := worldHeight }, nextVel := { s1.nextVel with y := 0 } }
  else s1

/-! ## systems/detection.ts (the obstacle-aware variant referenced by the
claims: constants `PX_PER_M`, `NI_CAL_AMBIENT`, `NI_CAL_PASSIVE`, occlusion
helpers and the three threshold/SNR detection channels). -/

/-- `DetectionParams` from systems/detection.ts. -/
structure DetectionParams where
  ambientBaseMeters : ℝ
  passiveBaseMeters : ℝ
  activeBaseMeters : ℝ
  passiveArcDegrees : ℝ
  passiveArcMaxDegrees : ℝ
  passiveArcMinDegrees : ℝ
  passiveMinErrorMeters : ℝ
  passiveMaxErrorMeters : ℝ

/-- `AmbientContact` from state/store.ts. -/
structure AmbientContact where
  id : String
  approximatePosition : Vec2

/-- `PassiveReturn` as produced by the obstacle-aware detection module
(bearing-only variant). -/
structure PassiveReturn where
  id : String
  bearingRadians : ℝ
  posErrorMeters : ℝ
  snr : ℝ

/-- `ActiveContact` from state/store.ts. -/
structure ActiveContact where
  id : String
  position : Vec2

/-- `const PX_PER_M = 1 / 40` from systems/detection.ts. -/
def PX_PER_M : ℝ := 1 / 40

/-- `const NI_CAL_AMBIENT = 5.0` from systems/detection.ts. -/
def NI_CAL_AMBIENT : ℝ := 5.0

/-- `const NI_CAL_PASSIVE = 8.0` from systems/detection.ts. -/
def NI_CAL_PASSIVE : ℝ := 8.0

/-- `distance` from systems/detection.ts (`Math.hypot` of the coordinate
differences). -/
def distance (a b : Vec2) : ℝ := hypot (a.x - b.x) (a.y - b.y)

/-- `Math.atan2 y x`, modelled as the argument of the complex number
`x + y * I`; both functions have range (-pi, pi], agree on all four
half-axes and send the origin to 0. -/
def atan2 (y x : ℝ) : ℝ := Complex.arg ⟨x, y⟩

/-- `isWithinArc` from systems/detection.ts. -/
def isWithinArc (source target : Ship) (arcDegrees : ℝ) : Prop :=
  let dx := target.position.x - source.position.x
  let dy := target.position.y - source.position.y
  let angleToTarget := atan2 dy dx
  let delta := |atan2 (Real.sin (angleToTarget - source.headingRadians))
                      (Real.cos (angleToTarget - source.headingRadians))|
  delta ≤ arcDegrees * Real.pi / 180 / 2

/-- `isPointInsideRect` from systems/detection.ts. -/
def isPointInsideRect (p : Vec2) (r : ObstacleRect) : Prop :=
  p.x ≥ r.x ∧ p.x ≤ r.x + r.width ∧ p.y ≥ r.y ∧ p.y ≤ r.y + r.height

/-- `onSegment` from systems/detection.ts. -/
def onSegment (a b c : Vec2) : Prop :=
  min a.x b.x ≤ c.x ∧ c.x ≤ max a.x b.x ∧ min a.y b.y ≤ c.y ∧ c.y ≤ max a.y b.y

/-- `orientation` from systems/detection.ts (0 collinear within the 1e-9
epsilon, 1 clockwise, 2 counterclockwise). -/
def orientation (a b c : Vec2) : ℕ :=
  let val := (b.y - a.y) * (c.x - b.x) - (b.x - a.x) * (c.y - b.y)
  if |val| < 1e-9 then 0 else if val > 0 then 1 else 2

/-- `segmentsIntersect` from systems/detection.ts; the early returns of the
source become a disjunction. -/
def segmentsIntersect (p1 p2 q1 q2 : Vec2) : Prop :=
  let o1 := orientation p1 p2 q1
  let o2 := orientation p1 p2 q2
  let o3 := orientation q1 q2 p1
  let o4 := orientation q1 q2 p2
  (o1 ≠ o2 ∧ o3 ≠ o4) ∨
  (o1 = 0 ∧ onSegment p1 p2 q1) ∨
  (o2 = 0 ∧ onSegment p1 p2 q2) ∨
  (o3 = 0 ∧ onSegment q1 q2 p1) ∨
  (o4 = 0 ∧ onSegment q1 q2 p2)

/-- `segmentIntersectsRect` from systems/detection.ts. -/
def segmentIntersectsRect (a b : Vec2) (r : ObstacleRect) : Prop :=
  isPointInsideRect a r ∨ isPointInsideRect b r ∨
  segmentsIntersect a b ⟨r.x, r.y⟩ ⟨r.x + r.width, r.y⟩ ∨
  segmentsIntersect a b ⟨r.x + r.width, r.y⟩ ⟨r.x + r.width, r.y + r.height⟩ ∨
  segmentsIntersect a b ⟨r.x + r.width, r.y + r.height⟩ ⟨r.x, r.y + r.height⟩ ∨
  segmentsIntersect a b ⟨r.x, r.y + r.height⟩ ⟨r.x, r.y⟩

/-- `isOccluded` from systems/detection.ts; the loop with early return
becomes an existential over the obstacle list. -/
def isOccluded (source target : Vec2) (obstacles : List ObstacleRect) : Prop :=
  ∃ r ∈ obstacles, segmentIntersectsRect source target r

/-- `rand(min, max)` from systems/detection.ts with the `Math.random()`
draw `u` made explicit. -/
def rand (lo hi u : ℝ) : ℝ := u * (hi - lo) + lo

/-- `clamp` from systems/detection.ts. -/
def clamp (v lo hi : ℝ) : ℝ := max lo (min hi v)

/-- `classSizeFactor` from systems/detection.ts (`?? 7000` is `Option.getD`). -/
def classSizeFactor (target : Ship) : ℝ :=
  let base := target.detectabilityBaseMeters.getD 7000 / 7000
  max 0.8 (min 1.2 base)

/-- The `threshold` local of `computeAmbientContacts`. -/
def ambientThreshold (params : DetectionParams) : ℝ :=
  let dBaseM := max 1 params.ambientBaseMeters
  1 / (dBaseM * dBaseM)

/-- The per-target `signal` local of `computeAmbientContacts`
(pixel distance floored at 1 and converted to meters by `PX_PER_M`). -/
def ambientSignal (player target : Ship) : ℝ :=
  let rPx := max 1 (distance player.position target.position)
  let rM := rPx / PX_PER_M
  NI_CAL_AMBIENT * max 0.01 target.niSmooth * classSizeFactor target / (rM * rM)

/-- `computeAmbientContacts` from systems/detection.ts; the loop with
`continue` becomes a `filterMap` over the enumerated target list, the two
`rand(-20, 20)` jitter draws for target number `i` read the explicit
randomness stream at `2*i` and `2*i+1`. -/
def computeAmbientContacts (player : Ship) (others : List Ship) (params : DetectionParams)
    (obstacles : List ObstacleRect) (u : ℕ → ℝ) : List AmbientContact :=
  others.enum.filterMap fun p =>
    let i := p.1
    let target := p.2
    if isOccluded player.position target.position obstacles then none
    else if ambientSignal player target ≥ ambientThreshold params then
      some { id := target.id
             approximatePosition :=
               ⟨target.position.x + rand (-20) 20 (u (2 * i)),
                target.position.y + rand (-20) 20 (u (2 * i + 1))⟩ }
    else none

/-- The `threshold` local of `computePassiveReturns`. -/
def passiveThreshold (params : DetectionParams) : ℝ :=
  let dBaseM := max 1 params.passiveBaseMeters
  1 / (dBaseM * dBaseM)

/-- The `arcDeg` local of `computePassiveReturns`. -/
def passiveArcDeg (params : DetectionParams) : ℝ :=
  clamp params.passiveArcDegrees params.passiveArcMinDegrees params.passiveArcMaxDegrees

/-- The directivity gain `DI` local of `computePassiveReturns`. -/
def passiveDI (params : DetectionParams) : ℝ :=
  Real.sqrt (params.passiveArcMaxDegrees / max 1 (passiveArcDeg params))

/-- The per-target `signal` local of `computePassiveReturns`. -/
def passiveSignal (player target : Ship) (params : DetectionParams) : ℝ :=
  let rPx := max 1 (distance player.position target.position)
  let rM := rPx / PX_PER_M
  NI_CAL_PASSIVE * max 0.01 target.niSmooth * classSizeFactor target * passiveDI params /
    (rM * rM)

/-- The `snr` local of `computePassiveReturns`. -/
def passiveSnr (player target : Ship) (params : DetectionParams) : ℝ :=
  max 1 (passiveSignal player target params / passiveThreshold params)

/-- The `clamp(baseErr / Math.sqrt(snr), minErr, maxErr)` part of the
`posError` local of `computePassiveReturns`: the reported position error
bound before its random (0.9 + 0.2 * random) factor. -/
def passivePosErrorPre (player target : Ship) (params : DetectionParams) : ℝ :=
  let baseErr := (params.passiveMinErrorMeters + params.passiveMaxErrorMeters) / 2
  clamp (baseErr / Real.sqrt (passiveSnr player target params))
    params.passiveMinErrorMeters params.passiveMaxErrorMeters

/-- `computePassiveReturns` from systems/detection.ts (bearing-only
variant); `Math.random()` for target number `i` reads the stream at `i`. -/
def computePassiveReturns (player : Ship) (others : List Ship) (params : DetectionParams)
    (obstacles : List ObstacleRect) (u : ℕ → ℝ) : List PassiveReturn :=
  others.enum.filterMap fun p =>
    let target := p.2
    if ¬ isWithinArc player target (passiveArcDeg params) then none
    else if isOccluded player.position target.position obstacles then none
    else if passiveSignal player target params ≥ passiveThreshold params then
      some { id := target.id
             bearingRadians := atan2 (target.position.y - player.position.y)
                                     (target.position.x - player.position.x)
             posErrorMeters := passivePosErrorPre player target params * (0.9 + u p.1 * 0.2)
             snr := passiveSnr player target params }
    else none

/-- The `threshold` local of `computeActiveContacts`. -/
def activeThreshold (params : DetectionParams) : ℝ :=
  let dBaseM := max 1 params.activeBaseMeters
  1 / dBaseM ^ 4

/-- The per-target `signal` local of `computeActiveContacts`. -/
def activeSignal (player target : Ship) : ℝ :=
  let rPx := max 1 (distance player.position target.position)
  let rM := rPx / PX_PER_M
  classSizeFactor target / rM ^ 4

/-- `computeActiveContacts` from systems/detection.ts. -/
def computeActiveContacts (player : Ship) (others : List Ship) (params : DetectionParams)
    (obstacles : List ObstacleRect) : List ActiveContact :=
  others.filterMap fun target =>
    if isOccluded player.position target.position obstacles then none
    else if activeSignal player target ≥ activeThreshold params then
      some { id := target.id, position := target.position }
    else none

/-- Reveal bubble record (state/store.ts `revealBubbles` entries). -/
structure RevealBubble where
  x : ℝ
  y : ℝ
  r : ℝ
  createdAt : ℝ
  ttlMs : ℝ

/-- `createRevealBubble` from systems/detection.ts, with the
`performance.now()` call passed in as `nowMs`. -/
def createRevealBubble (source : Ship) (radius lifetimeMs nowMs : ℝ) : RevealBubble :=
  { x := source.position.x, y := source.position.y, r := radius,
    createdAt := nowMs, ttlMs := lifetimeMs }

/-! ## ai/prey.ts -/

/-- The `PreyIntent` type of ai/prey.ts. -/
inductive PreyIntent where
  | patrol
  | evade
  | hide

/-- JavaScript `%` (remainder with the sign of the dividend): truncated
division. -/
def jsMod (a b : ℝ) : ℝ :=
  a - b * (if 0 ≤ a / b then (⌊a / b⌋ : ℝ) else (⌈a / b⌉ : ℝ))

/-- The truthiness test `prey.lastPingDetectedAt && performance.now() -
prey.lastPingDetectedAt < 4000` from ai/prey.ts (`null` and `0` are both
falsy). -/
def pingRecentlyFor (prey : Ship) (nowMs : ℝ) : Prop :=
  match prey.lastPingDetectedAt with
  | none => False
  | some t => t ≠ 0 ∧ nowMs - t < 4000

/-- `repulsionFromObstacles` from ai/prey.ts. -/
def repulsionFromObstacles (px py : ℝ) (obstacles : List ObstacleRect) : ℝ × ℝ :=
  obstacles.foldl
    (fun acc r =>
      let cx := max r.x (min px (r.x + r.width))
      let cy := max r.y (min py (r.y + r.height))
      let dx := px - cx
      let dy := py - cy
      let dist := hypot dx dy
      if dist < 30 ∧ dist > 0.0001 then
        let strength := (30 - dist) / 30
        (acc.1 + dx / dist * strength, acc.2 + dy / dist * strength)
      else acc)
    (0, 0)

/-- The drag and max-speed lines at the end of `updatePreyAI` in ai/prey.ts:
`velocity -= velocity * 1.6 * dt` per component, then the clamp branch
`if (vmag > speed)` with the hard-coded AI top speed 220 and the `vmag`
reading taken before the unstick override. -/
def preyDragAndClamp (v3 : Vec2) (vmag dt : ℝ) : Vec2 :=
  let v4 : Vec2 := ⟨v3.x - v3.x * 1.6 * dt, v3.y - v3.y * 1.6 * dt⟩
  if vmag > 220 then ⟨v4.x * (220 / vmag), v4.y * (220 / vmag)⟩ else v4

/-- Result of one `updatePreyAI` call: the updated prey ship, the decoy
spawn request written to the `window.__spawnDecoy` mailbox (if any), and
the new `unstickUntilById` entry for the prey. -/
structure PreyAIResult where
  ship : Ship
  spawnDecoy : Option (Vec2 × ℝ)
  unstickUntilAfter : ℝ

/-- The intent computation and the intent branch of `updatePreyAI` in
ai/prey.ts: `patrol` by default, `evade` when pinged in the last 4 s, `hide`
when additionally the local environment suppression is below 0.3; each
branch writes the prey's velocity and suppression. -/
def preyApplyIntent (prey : Ship) (zones : List EnvironmentZone) (nowMs rndEvade : ℝ) : Ship :=
  let pingRecently := pingRecentlyFor prey nowMs
  let envSupp := environmentSuppressionAt prey.position zones
  let intent : PreyIntent :=
    if pingRecently then (if envSupp < 0.3 then .hide else .evade) else .patrol
  let speed : ℝ := 220
  match intent with
  | .patrol =>
      { prey with velocity := ⟨-50, Real.sin (nowMs / 800) * 20⟩, suppression := 0.1 }
  | .evade =>
      let phase := jsMod (nowMs / 300) 2
      if phase < 1 then
        { prey with velocity := ⟨prey.velocity.x * 0.95, prey.velocity.y * 0.95⟩,
                    suppression := 0.4 }
      else
        { prey with velocity := ⟨-speed, (if rndEvade < 0.5 then -1 else 1) * speed * 0.5⟩,
                    suppression := 0.2 }
  | .hide =>
      let nearest := zones.headI
      let dirX := nearest.x + nearest.width / 2 - prey.position.x
      let dirY := nearest.y + nearest.height / 2 - prey.position.y
      let len := if hypot dirX dirY = 0 then 1 else hypot dirX dirY
      { prey with velocity := ⟨dirX / len * (speed * 0.6), dirY / len * (speed * 0.6)⟩,
                  suppression := 0.5 }

/-- The obstacle-aware steering of `updatePreyAI` in ai/prey.ts: wall
repulsion at the current position plus a look-ahead probe 60 units ahead of
the heading. -/
def preyRepelVelocity (p2 : Ship) (obstacles : List ObstacleRect) (dt : ℝ) : Vec2 :=
  let repel := repulsionFromObstacles p2.position.x p2.position.y obstacles
  let v1 : Vec2 := ⟨p2.velocity.x + repel.1 * 180 * dt, p2.velocity.y + repel.2 * 180 * dt⟩
  let probeX := p2.position.x + Real.cos p2.headingRadians * 60
  let probeY := p2.position.y + Real.sin p2.headingRadians * 60
  let probeRepel := repulsionFromObstacles probeX probeY obstacles
  ⟨v1.x + probeRepel.1 * 220 * dt, v1.y + probeRepel.2 * 220 * dt⟩

/-- The unstick override of `updatePreyAI` in ai/prey.ts: if the current
speed is below 5 and no unstick window is active, force a perpendicular
burst at 80 percent of the AI top speed. -/
def preyUnstickVelocity (v2 : Vec2) (heading nowMs unstickUntil : ℝ) : Vec2 :=
  let vmag := hypot v2.x v2.y
  let unstick := vmag < 5 ∧ nowMs ≥ unstickUntil
  if unstick then
    let perpAngle := heading + Real.pi / 2
    ⟨Real.cos perpAngle * (220 * 0.8), Real.sin perpAngle * (220 * 0.8)⟩
  else v2

/-- `updatePreyAI` from ai/prey.ts.  `nowMs` stands for the tick's
`performance.now()` readings, `rndEvade` for the `Math.random()` draw of the
evade burst, and `unstickUntil` for `unstickUntilById.get(prey.id) || 0`. -/
def updatePreyAI (prey : Ship) (zones : List EnvironmentZone) (obstacles : List ObstacleRect)
    (dtMs nowMs rndEvade unstickUntil : ℝ) : PreyAIResult :=
  let dt := dtMs / 1000
  let p1 := preyApplyIntent prey zones nowMs rndEvade
  -- occasionally drop a decoy when pinged
  let dropDecoy := pingRecentlyFor prey nowMs ∧ nowMs - p1.lastDecoyAt.getD 0 > 3000
  let spawn : Option (Vec2 × ℝ) := if dropDecoy then some (p1.position, nowMs) else none
  let p2 : Ship := if dropDecoy then { p1 with lastDecoyAt := some nowMs } else p1
  -- wall repulsion and look-ahead probe
  let v2 := preyRepelVelocity p2 obstacles dt
  -- unstick: if almost stopped, force a perpendicular slide
  let vmag := hypot v2.x v2.y
  let v3 := preyUnstickVelocity v2 p2.headingRadians nowMs unstickUntil
  let unstickAfter :=
    if vmag < 5 ∧ nowMs ≥ unstickUntil then nowMs + 400 else unstickUntil
  -- integrate position, apply drag, clamp with the (stale) vmag reading
  let pos : Vec2 := ⟨p2.position.x + v3.x * dt, p2.position.y + v3.y * dt⟩
  let v5 := preyDragAndClamp v3 vmag dt
  { ship := { p2 with position := pos, velocity := v5, headingRadians := atan2 v5.y v5.x }
    spawnDecoy := spawn
    unstickUntilAfter := unstickAfter }

/-! ## input/controls.ts and the per-tick orchestration of main.ts -/

/-- `ScanState` from state/store.ts, restricted to the fields the embedded
functions read or write. -/
structure ScanState where
  ambientRangeMeters : ℝ
  passiveArcDegrees : ℝ
  passiveArcMaxDegrees : ℝ
  passiveArcMinDegrees : ℝ
  passiveRangeMeters : ℝ
  passiveRevealRadiusMeters : ℝ
  activeRangeMeters : ℝ
  activeRevealRadiusMeters : ℝ
  activeCooldownMs : ℝ
  lastActivePingAt : Option ℝ
  lastPassiveRevealAt : Option ℝ
  darkRunActive : Bool

/-- The pressed-key set read by `attachControls.tick` in input/controls.ts. -/
structure Keys where
  a : Bool
  d : Bool
  w : Bool
  s : Bool
  q : Bool
  e : Bool

/-- The `tick(dt)` closure of `attachControls` from input/controls.ts:
rotation, throttle with drag and max-speed clamp, position integration,
thrust noise, passive-arc adjustment and the dark-run flag. -/
def controlsTick (player : Ship) (scan : ScanState) (keys : Keys) (darkRunHeld : Bool)
    (dt : ℝ) : Ship × ScanState :=
  let heading1 := if keys.a then player.headingRadians - 2.0 * dt else player.headingRadians
  let heading2 := if keys.d then heading1 + 2.0 * dt else heading1
  let thrust : ℝ := if keys.w then 1 else if keys.s then -0.4 else 0
  let accelBase := player.accel.getD 180
  let accel := accelBase * thrust
  let vx1 := player.velocity.x + Real.cos heading2 * accel * dt
  let vy1 := player.velocity.y + Real.sin heading2 * accel * dt
  let drag : ℝ := 1.6
  let vx2 := vx1 - vx1 * drag * dt
  let vy2 := vy1 - vy1 * drag * dt
  let maxSpeed := player.maxSpeed.getD 220
  let vmag := hypot vx2 vy2
  let v : Vec2 :=
    if vmag > maxSpeed then ⟨vx2 * (maxSpeed / vmag), vy2 * (maxSpeed / vmag)⟩ else ⟨vx2, vy2⟩
  let pos : Vec2 := ⟨player.position.x + v.x * dt, player.position.y + v.y * dt⟩
  let thrustNoise := max 0.02 (max 0 thrust * 0.25)
  let arc1 := if keys.q then max scan.passiveArcMinDegrees (scan.passiveArcDegrees - 60 * dt)
              else scan.passiveArcDegrees
  let arc2 := if keys.e then min scan.passiveArcMaxDegrees (arc1 + 60 * dt) else arc1
  ({ player with headingRadians := heading2, velocity := v, position := pos,
                 thrustNoise := thrustNoise },
   { scan with passiveArcDegrees := arc2, darkRunActive := darkRunHeld })

/-- The player part of one `scene.app.ticker` step in main.ts: the controls
tick, the dark-run suppression (read from the pre-tick scan state), the
noise-index update, the position-only collision pass and the world-bound
clamp. -/
def playerTick (player : Ship) (scan : ScanState) (keys : Keys) (darkRunHeld : Bool)
    (zones : List EnvironmentZone) (obstacles : List ObstacleRect)
    (worldWidth worldHeight dt : ℝ) : Ship × ScanState :=
  let c := controlsTick player scan keys darkRunHeld dt
  let p1 := c.1
  let p2 := { p1 with suppression := if scan.darkRunActive then 0.45 else 0 }
  let p3 := { p2 with niRaw := computeNoiseIndexRaw p2 zones }
  let p4 := { p3 with niSmooth := smoothNoise p3.niSmooth p3.niRaw 0.15 }
  let corrected := resolveCollisions p4.position p4.position obstacles
  let p5 := { p4 with position := corrected }
  let clamped := clampToWorldBoundsWithVelocity p5.position p5.velocity worldWidth worldHeight
  ({ p5 with position := clamped.nextPos, velocity := clamped.nextVel }, c.2)

/-- The prey part of one `scene.app.ticker` step in main.ts: noise-index
update, `updatePreyAI`, a second `position + velocity*dt` integration, the
velocity-aware collision pass and the world-bound clamp. -/
def preyTick (prey : Ship) (zones : List EnvironmentZone) (obstacles : List ObstacleRect)
    (worldWidth worldHeight dtMs nowMs rndEvade unstickUntil : ℝ) : Ship :=
  let dt := dtMs / 1000
  let p1 := { prey with niRaw := computeNoiseIndexRaw prey zones }
  let p2 := { p1 with niSmooth := smoothNoise p1.niSmooth p1.niRaw 0.12 }
  let p3 := (updatePreyAI p2 zones obstacles dtMs nowMs rndEvade unstickUntil).ship
  let nextPrey : Vec2 := ⟨p3.position.x + p3.velocity.x * dt, p3.position.y + p3.velocity.y * dt⟩
  let col := resolveCollisionsWithVelocity p3.position nextPrey p3.velocity obstacles
  let clamped := clampToWorldBoundsWithVelocity col.nextPos col.nextVel worldWidth worldHeight
  { p3 with position := clamped.nextPos, velocity := clamped.nextVel }

/-- The slice of `DetectionState` read and written by the active-ping block
of the main.ts ticker. -/
structure DetectionSlice where
  activeContacts : List ActiveContact
  revealBubbles : List RevealBubble
  activeContactsExpiresAtMs : Option ℝ

/-- The truthiness test `state.scan.lastActivePingAt && now -
state.scan.lastActivePingAt <= state.scan.activeCooldownMs` from main.ts
(`null` and the number `0` are both falsy). -/
def inCooldownAt (lastActivePingAt : Option ℝ) (now cooldownMs : ℝ) : Prop :=
  match lastActivePingAt with
  | none => False
  | some t => t ≠ 0 ∧ now - t ≤ cooldownMs

/-- The test `expiresAt != null && now > expiresAt` from main.ts. -/
def jsExpired (expiresAt : Option ℝ) (now : ℝ) : Prop :=
  match expiresAt with
  | none => False
  | some t => now > t

/-- Everything the active-ping block of the main.ts ticker writes. -/
structure PingOutcome where
  activeContacts : List ActiveContact
  revealBubbles : List RevealBubble
  lastActivePingAt : Option ℝ
  activeContactsExpiresAtMs : Option ℝ
  preyLastPingDetectedAt : Option ℝ
  playerNiSmooth : ℝ
  pingQueuedAfter : Bool

/-- The active-ping handling of one main.ts ticker step (the bubble fade on
line "fades expired bubbles", the `isQueued`/`inCooldown`/`shouldPing`
logic, the ping consumption and the active-contact TTL decay).  `queued`
models `window.__pingQueued === true`. -/
def activePingStep (queued : Bool) (player prey : Ship) (targets : List Ship)
    (params : DetectionParams) (obstacles : List ObstacleRect)
    (scan : ScanState) (det : DetectionSlice) (now : ℝ) : PingOutcome :=
  let bubbles := det.revealBubbles.filter fun b => decide (now - b.createdAt < b.ttlMs)
  let shouldPing := queued = true ∧ ¬ inCooldownAt scan.lastActivePingAt now scan.activeCooldownMs
  if shouldPing then
    let active := computeActiveContacts player targets params obstacles
    let expires : Option ℝ := some (now + 1200)
    { activeContacts := if jsExpired expires now then [] else active
      revealBubbles := bubbles ++ [createRevealBubble player (scan.activeRevealRadiusMeters / 40) 1500 now]
      lastActivePingAt := some now
      activeContactsExpiresAtMs := expires
      preyLastPingDetectedAt := some now
      playerNiSmooth := min 1.5 (player.niSmooth + 0.6)
      pingQueuedAfter := false }
  else
    { activeContacts := if jsExpired det.activeContactsExpiresAtMs now then []
                        else det.activeContacts
      revealBubbles := bubbles
      lastActivePingAt := scan.lastActivePingAt
      activeContactsExpiresAtMs := det.activeContactsExpiresAtMs
      preyLastPingDetectedAt := prey.lastPingDetectedAt
      playerNiSmooth := player.niSmooth
      pingQueuedAfter := queued }

/-! ## Helper lemmas about `hypot` (speed magnitudes) -/

lemma hypot_nonneg (x y : ℝ) : 0 ≤ hypot x y := Real.sqrt_nonneg _

lemma hypot_mul (c x y : ℝ) : hypot (c * x) (c * y) = |c| * hypot x y := by
  unfold hypot
  rw [mul_pow, mul_pow, ← mul_add, Real.sqrt_mul (sq_nonneg c), Real.sqrt_sq_eq_abs]

lemma hypot_le_hypot (x' y' x y : ℝ) (hx : |x'| ≤ |x|) (hy : |y'| ≤ |y|) :
    hypot x' y' ≤ hypot x y := by
  unfold hypot
  apply Real.sqrt_le_sqrt
  have h1 : x' ^ 2 ≤ x ^ 2 := by
    rw [← sq_abs x', ← sq_abs x]; exact pow_le_pow_left (abs_nonneg _) hx 2
  have h2 : y' ^ 2 ≤ y ^ 2 := by
    rw [← sq_abs y', ← sq_abs y]; exact pow_le_pow_left (abs_nonneg _) hy 2
  linarith

lemma hypot_le (x y c : ℝ) (hc : 0 ≤ c) (h : x ^ 2 + y ^ 2 ≤ c ^ 2) : hypot x y ≤ c := by
  unfold hypot
  calc Real.sqrt (x ^ 2 + y ^ 2) ≤ Real.sqrt (c ^ 2) := Real.sqrt_le_sqrt h
    _ = c := Real.sqrt_sq hc

lemma lt_hypot (x y c : ℝ) (hc : 0 ≤ c) (h : c ^ 2 < x ^ 2 + y ^ 2) : c < hypot x y := by
  unfold hypot
  have := Real.sqrt_lt_sqrt (sq_nonneg c) h
  rwa [Real.sqrt_sq hc] at this

lemma hypot_cos_sin (θ c : ℝ) (hc : 0 ≤ c) :
    hypot (Real.cos θ * c) (Real.sin θ * c) = c := by
  rw [mul_comm (Real.cos θ) c, mul_comm (Real.sin θ) c, hypot_mul, abs_of_nonneg hc]
  unfold hypot
  rw [Real.cos_sq_add_sin_sq, Real.sqrt_one, mul_one]

/-! ## Speed is not increased by collision resolution or world clamping -/

lemma speed_resolveWithVelocityStep (s : CollisionResult) (r : ObstacleRect) :
    hypot (resolveWithVelocityStep s r).nextVel.x (resolveWithVelocityStep s r).nextVel.y ≤
      hypot s.nextVel.x s.nextVel.y := by
  simp only [resolveWithVelocityStep]
  split_ifs <;> simp <;>
    exact hypot_le_hypot _ _ _ _ (by simp) (by simp)

lemma speed_resolveFold (l : List ObstacleRect) (s : CollisionResult) :
    hypot (l.foldl resolveWithVelocityStep s).nextVel.x
        (l.foldl resolveWithVelocityStep s).nextVel.y ≤
      hypot s.nextVel.x s.nextVel.y := by
  induction l generalizing s with
  | nil => simp
  | cons r t ih =>
      simp only [List.foldl_cons]
      exact le_trans (ih _) (speed_resolveWithVelocityStep s r)

lemma speed_resolveCollisionsWithVelocity (position next velocity : Vec2)
    (obstacles : List ObstacleRect) :
    hypot (resolveCollisionsWithVelocity position next velocity obstacles).nextVel.x
        (resolveCollisionsWithVelocity position next velocity obstacles).nextVel.y ≤
      hypot velocity.x velocity.y := by
  unfold resolveCollisionsWithVelocity
  exact speed_resolveFold obstacles _

lemma speed_clampToWorldBounds (next velocity : Vec2) (w h : ℝ) :
    hypot (clampToWorldBoundsWithVelocity next velocity w h).nextVel.x
        (clampToWorldBoundsWithVelocity next velocity w h).nextVel.y ≤
      hypot velocity.x velocity.y := by
  simp only [clampToWorldBoundsWithVelocity]
  split_ifs <;> simp <;>
    exact hypot_le_hypot _ _ _ _ (by simp) (by simp)

/-- The drag factor `(1 - 1.6*dt)` scales speed, and the stale-`vmag` clamp
caps it: under `0 ≤ dt` and `1.6*dt ≤ 1`, the final prey speed is at most
220 provided `vmag` bounds the incoming speed in the clamp branch and the
incoming speed is at most 220 otherwise. -/
lemma speed_preyDragAndClamp (v3 : Vec2) (vmag dt : ℝ)
    (hdt0 : 0 ≤ dt) (hdt1 : 1.6 * dt ≤ 1)
    (hclamp : vmag > 220 → hypot v3.x v3.y ≤ vmag)
    (hsmall : ¬ vmag > 220 → hypot v3.x v3.y ≤ 220) :
    hypot (preyDragAndClamp v3 vmag dt).x (preyDragAndClamp v3 vmag dt).y ≤ 220 := by
  unfold preyDragAndClamp
  have hk0 : 0 ≤ 1 - 1.6 * dt := by linarith
  have hk1 : 1 - 1.6 * dt ≤ 1 := by linarith
  have hv4x : v3.x - v3.x * 1.6 * dt = (1 - 1.6 * dt) * v3.x := by ring
  have hv4y : v3.y - v3.y * 1.6 * dt = (1 - 1.6 * dt) * v3.y := by ring
  split_ifs with hgt
  · -- clamp branch: speed becomes (1 - 1.6*dt) * (220/vmag) * |v3| ≤ 220
    have hvpos : (0:ℝ) < vmag := by linarith
    have hv3 : hypot v3.x v3.y ≤ vmag := hclamp hgt
    simp only
    have hx : (v3.x - v3.x * 1.6 * dt) * (220 / vmag) = ((1 - 1.6 * dt) * (220 / vmag)) * v3.x := by
      ring
    have hy : (v3.y - v3.y * 1.6 * dt) * (220 / vmag) = ((1 - 1.6 * dt) * (220 / vmag)) * v3.y := by
      ring
    rw [hx, hy, hypot_mul]
    have hcpos : 0 ≤ (1 - 1.6 * dt) * (220 / vmag) := by positivity
    rw [abs_of_nonneg hcpos]
    have h1 : (1 - 1.6 * dt) * (220 / vmag) * hypot v3.x v3.y ≤
        (1 - 1.6 * dt) * (220 / vmag) * vmag :=
      mul_le_mul_of_nonneg_left hv3 hcpos
    have h2 : (1 - 1.6 * dt) * (220 / vmag) * vmag = (1 - 1.6 * dt) * 220 := by
      field_simp
    nlinarith [hypot_nonneg v3.x v3.y]
  · have hv3 : hypot v3.x v3.y ≤ 220 := hsmall hgt
    simp only
    rw [hv4x, hv4y, hypot_mul, abs_of_nonneg hk0]
    nlinarith [hypot_nonneg v3.x v3.y]

/-- The `if (vmag > maxSpeed)` clamp pattern shared by controls.ts and
ai/prey.ts: after scaling by `maxSpeed / vmag` the speed is at most
`maxSpeed`. -/
lemma clamp_speed_le (a b M : ℝ) (hM : 0 ≤ M) :
    hypot ((if hypot a b > M then (⟨a * (M / hypot a b), b * (M / hypot a b)⟩ : Vec2)
            else (⟨a, b⟩ : Vec2)) : Vec2).x
          ((if hypot a b > M then (⟨a * (M / hypot a b), b * (M / hypot a b)⟩ : Vec2)
            else (⟨a, b⟩ : Vec2)) : Vec2).y ≤ M := by
  split_ifs with h
  · have hpos : 0 < hypot a b := lt_of_le_of_lt hM h
    simp only
    rw [mul_comm a, mul_comm b, hypot_mul, abs_of_nonneg (by positivity)]
    have hcancel : M / hypot a b * hypot a b = M := by field_simp
    exact le_of_eq hcancel
  · simpa using le_of_not_lt h

/-- After `attachControls.tick`, the player's speed is at most the player's
`maxSpeed ?? 220`. -/
lemma speed_controlsTick (player : Ship) (scan : ScanState) (keys : Keys)
    (darkRunHeld : Bool) (dt : ℝ) (hms : 0 ≤ player.maxSpeed.getD 220) :
    hypot (controlsTick player scan keys darkRunHeld dt).1.velocity.x
          (controlsTick player scan keys darkRunHeld dt).1.velocity.y ≤
      player.maxSpeed.getD 220 := by
  simp only [controlsTick]
  exact clamp_speed_le _ _ _ hms

/-- Composition of the unstick override, the drag and the stale-`vmag`
clamp: the resulting speed is at most 220. -/
lemma speed_unstick_drag_clamp (v2 : Vec2) (θ nowMs u dt : ℝ)
    (hdt0 : 0 ≤ dt) (hdt1 : 1.6 * dt ≤ 1) :
    hypot (preyDragAndClamp (preyUnstickVelocity v2 θ nowMs u) (hypot v2.x v2.y) dt).x
          (preyDragAndClamp (preyUnstickVelocity v2 θ nowMs u) (hypot v2.x v2.y) dt).y ≤
      220 := by
  apply speed_preyDragAndClamp _ _ _ hdt0 hdt1
  · intro hgt
    simp only [preyUnstickVelocity]
    split_ifs with hu
    · exact absurd hgt (not_lt.mpr (by linarith [hu.1]))
    · exact le_refl _
  · intro hle
    simp only [preyUnstickVelocity]
    split_ifs with hu
    · rw [hypot_cos_sin _ _ (by norm_num : (0:ℝ) ≤ 220 * 0.8)]
      norm_num
    · exact not_lt.mp hle

/-- After `updatePreyAI`, the prey's speed is at most the hard-coded AI top
speed 220, for any tick shorter than the 625 ms at which the drag factor
changes sign. -/
lemma speed_updatePreyAI (prey : Ship) (zones : List EnvironmentZone)
    (obstacles : List ObstacleRect) (dtMs nowMs rndEvade unstickUntil : ℝ)
    (hdt0 : 0 ≤ dtMs) (hdt1 : 1.6 * (dtMs / 1000) ≤ 1) :
    hypot (updatePreyAI prey zones obstacles dtMs nowMs rndEvade unstickUntil).ship.velocity.x
          (updatePreyAI prey zones obstacles dtMs nowMs rndEvade unstickUntil).ship.velocity.y ≤
      220 := by
  simp only [updatePreyAI]
  exact speed_unstick_drag_clamp _ _ _ _ _ (div_nonneg hdt0 (by norm_num)) hdt1

lemma speed_playerTick (player : Ship) (scan : ScanState) (keys : Keys) (darkRunHeld : Bool)
    (zones : List EnvironmentZone) (obstacles : List ObstacleRect)
    (worldWidth worldHeight dt : ℝ) (hms : 0 ≤ player.maxSpeed.getD 220) :
    hypot (playerTick player scan keys darkRunHeld zones obstacles worldWidth worldHeight dt).1.velocity.x
          (playerTick player scan keys darkRunHeld zones obstacles worldWidth worldHeight dt).1.velocity.y ≤
      player.maxSpeed.getD 220 := by
  simp only [playerTick]
  refine le_trans (speed_clampToWorldBounds _ _ _ _) ?_
  exact speed_controlsTick player scan keys darkRunHeld dt hms

lemma speed_preyTick (prey : Ship) (zones : List EnvironmentZone)
    (obstacles : List ObstacleRect) (worldWidth worldHeight dtMs nowMs rndEvade unstickUntil : ℝ)
    (hdt0 : 0 ≤ dtMs) (hdt1 : 1.6 * (dtMs / 1000) ≤ 1) :
    hypot (preyTick prey zones obstacles worldWidth worldHeight dtMs nowMs rndEvade unstickUntil).velocity.x
          (preyTick prey zones obstacles worldWidth worldHeight dtMs nowMs rndEvade unstickUntil).velocity.y ≤
      220 := by
  simp only [preyTick]
  refine le_trans (speed_clampToWorldBounds _ _ _ _) ?_
  refine le_trans (speed_resolveCollisionsWithVelocity _ _ _ _) ?_
  exact speed_updatePreyAI _ zones obstacles dtMs nowMs rndEvade unstickUntil hdt0 hdt1

/-! ## Initial state fixtures from state/store.ts -/

/-- `createInitialPlayer` from state/store.ts. -/
def createInitialPlayer : Ship :=
  { id := "player"
    position := ⟨150, 150⟩
    velocity := ⟨0, 0⟩
    headingRadians := 0
    baseNoise := 0.2
    thrustNoise := 0
    weaponsNoise := 0
    moduleNoise := 0.05
    suppression := 0
    niRaw := 0
    niSmooth := 0
    lastPingDetectedAt := none
    lastDecoyAt := none
    detectabilityBaseMeters := some 6000
    maxSpeed := some 220
    accel := some 180 }

/-- `createInitialPrey` from state/store.ts. -/
def createInitialPrey : Ship :=
  { id := "prey"
    position := ⟨700, 500⟩
    velocity := ⟨-0.05, 0⟩
    headingRadians := Real.pi
    baseNoise := 0.1
    thrustNoise := 0.02
    weaponsNoise := 0
    moduleNoise := 0.02
    suppression := 0
    niRaw := 0
    niSmooth := 0
    lastPingDetectedAt := none
    lastDecoyAt := none
    detectabilityBaseMeters := some 7000
    maxSpeed := some 180
    accel := some 140 }

/-- The initial `scan` record of the store in state/store.ts. -/
def initialScan : ScanState :=
  { ambientRangeMeters := 5000
    passiveArcDegrees := 90
    passiveArcMaxDegrees := 180
    passiveArcMinDegrees := 30
    passiveRangeMeters := 10000
    passiveRevealRadiusMeters := 2000
    activeRangeMeters := 24000
    activeRevealRadiusMeters := 48000
    activeCooldownMs := 5000
    lastActivePingAt := none
    lastPassiveRevealAt := none
    darkRunActive := false }

/-! ## Claim C1 -/

/-- C1 (amended): at the end of a simulation tick the player's speed is at
most the player's `maxSpeed ?? 220`; the prey's speed is at most the
hard-coded AI top speed 220 (for tick lengths up to the 625 ms at which the
drag factor changes sign), which is not the prey ship's own `maxSpeed`. -/
theorem C1_speed_clamped :
    (∀ (player : Ship) (scan : ScanState) (keys : Keys) (darkRunHeld : Bool)
       (zones : List EnvironmentZone) (obstacles : List ObstacleRect)
       (worldWidth worldHeight dt : ℝ),
       0 ≤ player.maxSpeed.getD 220 →
       hypot (playerTick player scan keys darkRunHeld zones obstacles worldWidth worldHeight dt).1.velocity.x
             (playerTick player scan keys darkRunHeld zones obstacles worldWidth worldHeight dt).1.velocity.y ≤
         player.maxSpeed.getD 220) ∧
    (∀ (prey : Ship) (zones : List EnvironmentZone) (obstacles : List ObstacleRect)
       (worldWidth worldHeight dtMs nowMs rndEvade unstickUntil : ℝ),
       0 ≤ dtMs → dtMs ≤ 625 →
       hypot (preyTick prey zones obstacles worldWidth worldHeight dtMs nowMs rndEvade unstickUntil).velocity.x
             (preyTick prey zones obstacles worldWidth worldHeight dtMs nowMs rndEvade unstickUntil).velocity.y ≤
         220) := by
  constructor
  · intro player scan keys darkRunHeld zones obstacles worldWidth worldHeight dt hms
    exact speed_playerTick player scan keys darkRunHeld zones obstacles worldWidth worldHeight dt hms
  · intro prey zones obstacles worldWidth worldHeight dtMs nowMs rndEvade unstickUntil hdt0 hdt625
    exact speed_preyTick prey zones obstacles worldWidth worldHeight dtMs nowMs rndEvade
      unstickUntil hdt0 (by linarith)

/-- Witness for C1: the amended bound applied to the initial player and prey
of state/store.ts on a 16 ms tick with no keys pressed. -/
theorem C1_speed_clamped_witness :
    hypot (playerTick createInitialPlayer initialScan ⟨false, false, false, false, false, false⟩
             false [] [] 3000 2000 0.016).1.velocity.x
          (playerTick createInitialPlayer initialScan ⟨false, false, false, false, false, false⟩
             false [] [] 3000 2000 0.016).1.velocity.y ≤
      createInitialPlayer.maxSpeed.getD 220 ∧
    hypot (preyTick createInitialPrey [] [] 3000 2000 16 1000 0.5 0).velocity.x
          (preyTick createInitialPrey [] [] 3000 2000 16 1000 0.5 0).velocity.y ≤ 220 :=
  ⟨C1_speed_clamped.1 createInitialPlayer initialScan ⟨false, false, false, false, false, false⟩
      false [] [] 3000 2000 0.016 (by simp [createInitialPlayer]),
   C1_speed_clamped.2 createInitialPrey [] [] 3000 2000 16 1000 0.5 0
      (by norm_num) (by norm_num)⟩

/-- Zone fixture for the C1 counterexample: one 0.5-suppression zone. -/
def c1Zones : List EnvironmentZone := [⟨1000, 1000, 200, 200, 0.5⟩]

/-- Prey fixture for the C1 counterexample: the initial prey of
state/store.ts (maxSpeed 180), moved inside the zone and pinged at
t = 100 ms, observed on the tick at t = 450 ms. -/
def c1Prey : Ship :=
  { createInitialPrey with position := ⟨1100, 1100⟩, lastPingDetectedAt := some 100 }

lemma c1_hyp220 : (220 : ℝ) < hypot (-220) 110 := by
  apply lt_hypot _ _ _ (by norm_num)
  norm_num

/-- On the C1 counterexample tick the prey AI takes the evade burst branch;
this evaluates the resulting velocity, position and (unchanged) maxSpeed for
any ship agreeing with `c1Prey` on the fields the AI reads. -/
lemma c1_ai_eval (p : Ship)
    (hping : p.lastPingDetectedAt = some 100)
    (hpos : p.position = ⟨1100, 1100⟩)
    (hdecoy : p.lastDecoyAt = none) :
    (updatePreyAI p c1Zones [] 30 450 0.7 0).ship.velocity =
      ⟨0.952 * (220 / hypot (-220) 110) * -220, 0.952 * (220 / hypot (-220) 110) * 110⟩ ∧
    (updatePreyAI p c1Zones [] 30 450 0.7 0).ship.position = ⟨1093.4, 1103.3⟩ ∧
    (updatePreyAI p c1Zones [] 30 450 0.7 0).ship.maxSpeed = p.maxSpeed := by
  have h220 := c1_hyp220
  have hintent : preyApplyIntent p c1Zones 450 0.7 =
      { p with velocity := ⟨-220, 110⟩, suppression := 0.2 } := by
    have hfloor : ⌊(450 : ℝ) / 300 / 2⌋ = 0 := by
      rw [Int.floor_eq_zero_iff]
      constructor <;> norm_num
    simp only [preyApplyIntent, pingRecentlyFor, hping, hpos, c1Zones, jsMod,
      environmentSuppressionAt, isPointInsideZone, List.foldl, hfloor]
    norm_num
  have hno5 : ¬ (hypot (-220 : ℝ) 110 < 5) := by linarith
  simp only [updatePreyAI, hintent, pingRecentlyFor, hping, preyRepelVelocity,
    repulsionFromObstacles, List.foldl, preyUnstickVelocity, preyDragAndClamp]
  norm_num [hdecoy]
  simp only [if_neg hno5, if_pos h220, hpos, Vec2.mk.injEq]
  norm_num
  constructor <;> ring

lemma c1_ai_vel (p : Ship) (hping : p.lastPingDetectedAt = some 100)
    (hpos : p.position = ⟨1100, 1100⟩) (hdecoy : p.lastDecoyAt = none) :
    (updatePreyAI p c1Zones [] 30 450 0.7 0).ship.velocity =
      ⟨0.952 * (220 / hypot (-220) 110) * -220, 0.952 * (220 / hypot (-220) 110) * 110⟩ :=
  (c1_ai_eval p hping hpos hdecoy).1

lemma c1_ai_pos (p : Ship) (hping : p.lastPingDetectedAt = some 100)
    (hpos : p.position = ⟨1100, 1100⟩) (hdecoy : p.lastDecoyAt = none) :
    (updatePreyAI p c1Zones [] 30 450 0.7 0).ship.position = ⟨1093.4, 1103.3⟩ :=
  (c1_ai_eval p hping hpos hdecoy).2.1

lemma c1_ai_max (p : Ship) (hping : p.lastPingDetectedAt = some 100)
    (hpos : p.position = ⟨1100, 1100⟩) (hdecoy : p.lastDecoyAt = none) :
    (updatePreyAI p c1Zones [] 30 450 0.7 0).ship.maxSpeed = p.maxSpeed :=
  (c1_ai_eval p hping hpos hdecoy).2.2

/-- C1 counterexample: on a 30 ms tick at t = 450 ms, a prey with
`maxSpeed = 180` that was pinged at t = 100 ms (inside a 0.5-suppression
zone, so the AI takes the evade burst) ends the simulation tick at speed
0.952 * 220 = 209.44 > 180: the AI clamps to the hard-coded 220, not to the
ship's own `maxSpeed`. -/
theorem C1_counterexample :
    (preyTick c1Prey c1Zones [] 3000 2000 30 450 0.7 0).maxSpeed = some 180 ∧
    180 < hypot (preyTick c1Prey c1Zones [] 3000 2000 30 450 0.7 0).velocity.x
              (preyTick c1Prey c1Zones [] 3000 2000 30 450 0.7 0).velocity.y := by
  have h220 := c1_hyp220
  have hspos : (0 : ℝ) < hypot (-220) 110 := by linarith
  have hsne : hypot (-220 : ℝ) 110 ≠ 0 := ne_of_gt hspos
  have hdiv1 : (220 : ℝ) / hypot (-220) 110 < 1 := (div_lt_one hspos).mpr h220
  have hdiv0 : (0 : ℝ) < 220 / hypot (-220) 110 := by positivity
  simp only [preyTick, resolveCollisionsWithVelocity, List.foldl_nil,
    clampToWorldBoundsWithVelocity]
  rw [c1_ai_vel _ (by simp [c1Prey, createInitialPrey]) (by simp [c1Prey, createInitialPrey])
        (by simp [c1Prey, createInitialPrey]),
      c1_ai_pos _ (by simp [c1Prey, createInitialPrey]) (by simp [c1Prey, createInitialPrey])
        (by simp [c1Prey, createInitialPrey]),
      c1_ai_max _ (by simp [c1Prey, createInitialPrey]) (by simp [c1Prey, createInitialPrey])
        (by simp [c1Prey, createInitialPrey])]
  constructor
  · simp [c1Prey, createInitialPrey]
  · have hveq : ∀ v : Vec2, v = ⟨0.952 * (220 / hypot (-220) 110) * -220,
        0.952 * (220 / hypot (-220) 110) * 110⟩ →
        (180 : ℝ) < hypot v.x v.y := by
      intro v hv
      subst hv
      simp only
      rw [hypot_mul]
      have hc : (0 : ℝ) ≤ 0.952 * (220 / hypot (-220) 110) := by positivity
      rw [abs_of_nonneg hc]
      have hcs : 0.952 * (220 / hypot (-220) 110) * hypot (-220) 110 = 0.952 * 220 := by
        field_simp
      rw [hcs]
      norm_num
    split_ifs <;>
      first
        | (exfalso; nlinarith [hdiv0, hdiv1])
        | (apply hveq; simp)

/-! ## Claim C8 -/

/-- Modelled from the spec: the sum of `noiseSuppression` over every zone
containing the point, clamped to [0, 0.9] (for comparison with the
implementation). -/
def envSuppressionSpec (point : Vec2) (zones : List EnvironmentZone) : ℝ :=
  max 0 (min 0.9
    (zones.map fun z => if isPointInsideZone point z then z.noiseSuppression else 0).sum)

lemma envFoldl_eq (point : Vec2) (zones : List EnvironmentZone) (init : ℝ) :
    zones.foldl
        (fun acc zone => if isPointInsideZone point zone then acc + zone.noiseSuppression
                         else acc) init =
      init + (zones.map fun z => if isPointInsideZone point z then z.noiseSuppression else 0).sum := by
  induction zones generalizing init with
  | nil => simp
  | cons z t ih =>
      simp only [List.foldl_cons, List.map_cons, List.sum_cons]
      split_ifs with h
      · rw [ih]; ring
      · rw [ih]; ring

/-- C8: `environmentSuppressionAt` returns the sum of the `noiseSuppression`
values of all zones containing the point, clamped to [0, 0.9], and its value
always lies in [0, 0.9] no matter how many zones overlap. -/
theorem C8_environment_suppression (point : Vec2) (zones : List EnvironmentZone) :
    environmentSuppressionAt point zones = envSuppressionSpec point zones ∧
    0 ≤ environmentSuppressionAt point zones ∧
    environmentSuppressionAt point zones ≤ 0.9 := by
  refine ⟨?_, ?_, ?_⟩
  · unfold environmentSuppressionAt envSuppressionSpec
    rw [envFoldl_eq]
    norm_num
  · exact le_max_left _ _
  · exact max_le (by norm_num) (min_le_left _ _)

/-! ## Claim C10 -/

/-- C10: `smoothNoise` always lands between `previous` and `current`
(inclusive) for every alpha, because alpha is clamped to [0.01, 1]; in
particular if both inputs lie in [0, 1.5] so does the result. -/
theorem C10_smoothNoise_bounds (previous current alpha : ℝ) :
    min previous current ≤ smoothNoise previous current alpha ∧
    smoothNoise previous current alpha ≤ max previous current ∧
    (0 ≤ previous → previous ≤ 1.5 → 0 ≤ current → current ≤ 1.5 →
      0 ≤ smoothNoise previous current alpha ∧ smoothNoise previous current alpha ≤ 1.5) := by
  simp only [smoothNoise]
  have h1 : (0.01 : ℝ) ≤ max 0.01 (min 1 alpha) := le_max_left _ _
  have h2 : max 0.01 (min 1 alpha) ≤ 1 := max_le (by norm_num) (min_le_left _ _)
  set a := max 0.01 (min 1 alpha) with ha
  have hmin : min previous current ≤ previous + (current - previous) * a := by
    rcases le_total previous current with h | h
    · rw [min_eq_left h]; nlinarith
    · rw [min_eq_right h]; nlinarith
  have hmax : previous + (current - previous) * a ≤ max previous current := by
    rcases le_total previous current with h | h
    · rw [max_eq_right h]; nlinarith
    · rw [max_eq_left h]; nlinarith
  refine ⟨hmin, hmax, fun hp0 hp1 hc0 hc1 => ⟨?_, ?_⟩⟩
  · have := le_trans (le_min hp0 hc0) hmin
    linarith
  · have := le_trans hmax (max_le hp1 hc1)
    linarith

/-- Witness for C10 at `previous = 0.2`, `current = 0.8`, `alpha = 2`
(an alpha outside [0, 1]). -/
theorem C10_smoothNoise_bounds_witness :
    0 ≤ smoothNoise 0.2 0.8 2 ∧ smoothNoise 0.2 0.8 2 ≤ 1.5 :=
  (C10_smoothNoise_bounds 0.2 0.8 2).2.2 (by norm_num) (by norm_num) (by norm_num) (by norm_num)

/-! ## Claim C9 -/

lemma resolveCollisionsStep_idem (n : Vec2) (r : ObstacleRect) :
    resolveCollisionsStep (resolveCollisionsStep n r) r = resolveCollisionsStep n r := by
  simp only [resolveCollisionsStep]
  by_cases h : n.x ≥ r.x ∧ n.x ≤ r.x + r.width ∧ n.y ≥ r.y ∧ n.y ≤ r.y + r.height
  · simp only [if_pos h]
    by_cases hp : min |r.x - n.x| |r.x + r.width - n.x| < min |r.y - n.y| |r.y + r.height - n.y|
    · simp only [if_pos hp]
      by_cases hd : |r.x - n.x| < |r.x + r.width - n.x|
      · simp only [if_pos hd]
        rw [if_neg]
        intro hc
        linarith [hc.1]
      · simp only [if_neg hd]
        rw [if_neg]
        intro hc
        linarith [hc.2.1]
    · simp only [if_neg hp]
      by_cases hd : |r.y - n.y| < |r.y + r.height - n.y|
      · simp only [if_pos hd]
        rw [if_neg]
        intro hc
        linarith [hc.2.2.1]
      · simp only [if_neg hd]
        rw [if_neg]
        intro hc
        linarith [hc.2.2.2]
  · simp only [if_neg h]

/-- C9 (amended): obstacle-collision resolution is idempotent for a single
obstacle rectangle — one pass leaves the point strictly outside that
rectangle, so a second pass returns the same position.  (With overlapping
obstacles a later rectangle can push the point back inside an earlier one,
and a second pass then moves it again; see the counterexample.) -/
theorem C9_single_obstacle_idempotent (p1 p2 next : Vec2) (r : ObstacleRect) :
    resolveCollisions p2 (resolveCollisions p1 next [r]) [r] =
      resolveCollisions p1 next [r] := by
  simp only [resolveCollisions, List.foldl_cons, List.foldl_nil]
  exact resolveCollisionsStep_idem next r

/-- Obstacle list for the C9 counterexample: the unit of the cycle is that
rectangle 2 pushes the point back inside rectangle 1. -/
def c9Obstacles : List ObstacleRect := [⟨0, 0, 100, 100⟩, ⟨-50, 100.005, 200, 50⟩]

/-- C9 counterexample: with two overlapping rectangles, one pass sends
(99.996, 99.997) to (99.996, 99.995), which is still inside the first
rectangle, and a second pass moves it again to (100.01, 99.995) — collision
resolution is not idempotent on obstacle lists. -/
theorem C9_counterexample :
    resolveCollisions ⟨0, 0⟩ ⟨99.996, 99.997⟩ c9Obstacles = ⟨99.996, 99.995⟩ ∧
    resolveCollisions ⟨0, 0⟩ ⟨99.996, 99.995⟩ c9Obstacles = ⟨100.01, 99.995⟩ ∧
    resolveCollisions ⟨0, 0⟩ (resolveCollisions ⟨0, 0⟩ ⟨99.996, 99.997⟩ c9Obstacles) c9Obstacles ≠
      resolveCollisions ⟨0, 0⟩ ⟨99.996, 99.997⟩ c9Obstacles := by
  have h1 : resolveCollisions ⟨0, 0⟩ ⟨99.996, 99.997⟩ c9Obstacles = ⟨99.996, 99.995⟩ := by
    simp only [c9Obstacles, resolveCollisions, List.foldl_cons, List.foldl_nil,
      resolveCollisionsStep]
    norm_num [abs_of_pos, abs_of_neg]
  have h2 : resolveCollisions ⟨0, 0⟩ ⟨99.996, 99.995⟩ c9Obstacles = ⟨100.01, 99.995⟩ := by
    simp only [c9Obstacles, resolveCollisions, List.foldl_cons, List.foldl_nil,
      resolveCollisionsStep]
    norm_num [abs_of_pos, abs_of_neg]
  refine ⟨h1, h2, ?_⟩
  rw [h1, h2]
  intro hc
  rw [Vec2.mk.injEq] at hc
  norm_num at hc

/-! ## Claim C4 -/

/-- C4 (amended): for a single obstacle rectangle containing the next
position, `resolveCollisionsWithVelocity` pushes the position out along the
axis of minimum penetration (0.01 beyond the nearer edge) and zeroes only
that axis' velocity component; an equal-penetration tie falls into the
y-axis branch, because the test `penX < penY` is strict. -/
theorem C4_single_rect_resolution (position next vel : Vec2) (r : ObstacleRect)
    (hin : next.x ≥ r.x ∧ next.x ≤ r.x + r.width ∧ next.y ≥ r.y ∧ next.y ≤ r.y + r.height) :
    (min (next.x - r.x) (r.x + r.width - next.x) < min (next.y - r.y) (r.y + r.height - next.y) →
      resolveCollisionsWithVelocity position next vel [r] =
        { nextPos := ⟨if next.x - r.x < r.x + r.width - next.x then r.x - 0.01
                      else r.x + r.width + 0.01, next.y⟩
          nextVel := ⟨0, vel.y⟩ } ∧
      ¬ ((resolveCollisionsWithVelocity position next vel [r]).nextPos.x ≥ r.x ∧
         (resolveCollisionsWithVelocity position next vel [r]).nextPos.x ≤ r.x + r.width)) ∧
    (¬ (min (next.x - r.x) (r.x + r.width - next.x) < min (next.y - r.y) (r.y + r.height - next.y)) →
      resolveCollisionsWithVelocity position next vel [r] =
        { nextPos := ⟨next.x, if next.y - r.y < r.y + r.height - next.y then r.y - 0.01
                             else r.y + r.height + 0.01⟩
          nextVel := ⟨vel.x, 0⟩ } ∧
      ¬ ((resolveCollisionsWithVelocity position next vel [r]).nextPos.y ≥ r.y ∧
         (resolveCollisionsWithVelocity position next vel [r]).nextPos.y ≤ r.y + r.height)) := by
  simp only [resolveCollisionsWithVelocity, List.foldl_cons, List.foldl_nil,
    resolveWithVelocityStep, if_pos hin]
  constructor
  · intro hp
    simp only [if_pos hp]
    refine ⟨by simp, ?_⟩
    by_cases hd : next.x - r.x < r.x + r.width - next.x
    · simp only [if_pos hd]
      intro hc
      linarith [hc.1]
    · simp only [if_neg hd]
      intro hc
      linarith [hc.2]
  · intro hp
    simp only [if_neg hp]
    refine ⟨by simp, ?_⟩
    by_cases hd : next.y - r.y < r.y + r.height - next.y
    · simp only [if_pos hd]
      intro hc
      linarith [hc.1]
    · simp only [if_neg hd]
      intro hc
      linarith [hc.2]

/-- Witness for C4 at a concrete inside point with unequal penetrations. -/
theorem C4_single_rect_resolution_witness :
    resolveCollisionsWithVelocity ⟨0, 0⟩ ⟨99, 50⟩ ⟨3, 4⟩ [⟨0, 0, 100, 100⟩] =
      { nextPos := ⟨100.01, 50⟩, nextVel := ⟨0, 4⟩ } := by
  have h := (C4_single_rect_resolution ⟨0, 0⟩ ⟨99, 50⟩ ⟨3, 4⟩ ⟨0, 0, 100, 100⟩
      (by norm_num)).1 (by norm_num)
  rw [h.1]
  norm_num

/-- C4 counterexample: at an exact penetration tie (the centre of a square)
the code resolves along the y axis and zeroes the y velocity, leaving the x
velocity untouched — not along the x axis as claimed. -/
theorem C4_tie_counterexample :
    resolveCollisionsWithVelocity ⟨0, 0⟩ ⟨5, 5⟩ ⟨3, 4⟩ [⟨0, 0, 10, 10⟩] =
      { nextPos := ⟨5, 10.01⟩, nextVel := ⟨3, 0⟩ } := by
  simp only [resolveCollisionsWithVelocity, List.foldl_cons, List.foldl_nil,
    resolveWithVelocityStep]
  norm_num

/-! ## Claim C2 -/

lemma hypot_x_zero (a : ℝ) : hypot a 0 = |a| := by
  unfold hypot
  rw [show a ^ 2 + 0 ^ 2 = a ^ 2 by ring, Real.sqrt_sq_eq_abs]

lemma hypot_zero_y (a : ℝ) : hypot 0 a = |a| := by
  unfold hypot
  rw [show (0 : ℝ) ^ 2 + a ^ 2 = a ^ 2 by ring, Real.sqrt_sq_eq_abs]

/-- Core computation for the C2 counterexample: a target with
`niSmooth = 0.05` and `sizeFactor = 0.8` exactly at the ambient base
distance has signal = threshold / 5 and is not reported. -/
lemma ambient_fifth_core (player target : Ship) (params : DetectionParams)
    (obstacles : List ObstacleRect) (u : ℕ → ℝ)
    (hni : target.niSmooth = 0.05)
    (hsf : classSizeFactor target = 0.8)
    (hbase : 1 ≤ params.ambientBaseMeters)
    (hpx : 1 ≤ distance player.position target.position)
    (hdist : distance player.position target.position = params.ambientBaseMeters * PX_PER_M) :
    ambientSignal player target = ambientThreshold params / 5 ∧
    ambientSignal player target < ambientThreshold params ∧
    computeAmbientContacts player [target] params obstacles u = [] := by
  have hd0 : (0 : ℝ) < params.ambientBaseMeters := by linarith
  have hth : ambientThreshold params =
      1 / (params.ambientBaseMeters * params.ambientBaseMeters) := by
    simp only [ambientThreshold, max_eq_right hbase]
  have hsig : ambientSignal player target =
      0.2 / (params.ambientBaseMeters * params.ambientBaseMeters) := by
    simp only [ambientSignal]
    rw [max_eq_right hpx, hdist, hni, hsf]
    simp only [PX_PER_M, NI_CAL_AMBIENT]
    rw [show ((0.01 : ℝ) ⊔ 0.05) = 0.05 by norm_num]
    have hne : params.ambientBaseMeters ≠ 0 := ne_of_gt hd0
    field_simp
    ring
  have h5 : ambientSignal player target = ambientThreshold params / 5 := by
    rw [hsig, hth]; ring
  have hlt : ambientSignal player target < ambientThreshold params := by
    rw [hsig, hth]
    have hdd : (0 : ℝ) < params.ambientBaseMeters * params.ambientBaseMeters := by positivity
    exact (div_lt_div_right hdd).mpr (by norm_num)
  refine ⟨h5, hlt, ?_⟩
  simp only [computeAmbientContacts, List.enum, List.enumFrom, List.filterMap]
  by_cases hocc : isOccluded player.position target.position obstacles
  · rw [if_pos hocc]
  · rw [if_neg hocc, if_neg (not_le.mpr hlt)]

/-- C2 (amended): for every configuration, a target positioned exactly at
the configured ambient base distance has an ambient signal equal to the
detection threshold `1/baseDist²` multiplied by
`NI_CAL_AMBIENT * max(0.01, niSmooth) * sizeFactor`; the signal therefore
equals the threshold exactly when that product is 1 (for example
`niSmooth = 0.2` with `sizeFactor = 1`, since `5 * 0.2 * 1 = 1`), and when
the product is below 1 the signal is strictly below the detection boundary
and the target is not reported as an ambient contact. -/
theorem C2_ambient_base_distance (player target : Ship) (params : DetectionParams)
    (obstacles : List ObstacleRect) (u : ℕ → ℝ)
    (hbase : 1 ≤ params.ambientBaseMeters)
    (hpx : 1 ≤ distance player.position target.position)
    (hdist : distance player.position target.position = params.ambientBaseMeters * PX_PER_M) :
    ambientSignal player target =
      ambientThreshold params *
        (NI_CAL_AMBIENT * max 0.01 target.niSmooth * classSizeFactor target) ∧
    (NI_CAL_AMBIENT * max 0.01 target.niSmooth * classSizeFactor target = 1 →
      ambientSignal player target = ambientThreshold params) ∧
    (NI_CAL_AMBIENT * max 0.01 target.niSmooth * classSizeFactor target < 1 →
      ambientSignal player target < ambientThreshold params ∧
      computeAmbientContacts player [target] params obstacles u = []) := by
  have hd0 : (0 : ℝ) < params.ambientBaseMeters := by linarith
  have hne : params.ambientBaseMeters ≠ 0 := ne_of_gt hd0
  have hth : ambientThreshold params =
      1 / (params.ambientBaseMeters * params.ambientBaseMeters) := by
    simp only [ambientThreshold, max_eq_right hbase]
  have hsig : ambientSignal player target =
      NI_CAL_AMBIENT * max 0.01 target.niSmooth * classSizeFactor target /
        (params.ambientBaseMeters * params.ambientBaseMeters) := by
    simp only [ambientSignal]
    rw [max_eq_right hpx, hdist]
    simp only [PX_PER_M]
    field_simp
  have hmain : ambientSignal player target =
      ambientThreshold params *
        (NI_CAL_AMBIENT * max 0.01 target.niSmooth * classSizeFactor target) := by
    rw [hsig, hth]; ring
  refine ⟨hmain, ?_, ?_⟩
  · intro h1
    rw [hmain, h1, mul_one]
  · intro hlt1
    have hthpos : 0 < ambientThreshold params := by
      rw [hth]; positivity
    have hlt : ambientSignal player target < ambientThreshold params := by
      rw [hmain]
      calc ambientThreshold params *
          (NI_CAL_AMBIENT * max 0.01 target.niSmooth * classSizeFactor target)
          < ambientThreshold params * 1 := mul_lt_mul_of_pos_left hlt1 hthpos
        _ = ambientThreshold params := mul_one _
    refine ⟨hlt, ?_⟩
    simp only [computeAmbientContacts, List.enum, List.enumFrom, List.filterMap]
    by_cases hocc : isOccluded player.position target.position obstacles
    · rw [if_pos hocc]
    · rw [if_neg hocc, if_neg (not_le.mpr hlt)]

/-- Detection parameters passed by the main.ts ticker with the initial scan
state (base ranges 5000 / 10000 / 24000 m, arc 90° in [30°, 180°], passive
error bounds 150..1200 m). -/
def c2Params : DetectionParams :=
  { ambientBaseMeters := 5000
    passiveBaseMeters := 10000
    activeBaseMeters := 24000
    passiveArcDegrees := 90
    passiveArcMaxDegrees := 180
    passiveArcMinDegrees := 30
    passiveMinErrorMeters := 150
    passiveMaxErrorMeters := 1200 }

/-- Observer fixture for C2: the initial player at the origin. -/
def c2Player : Ship := { createInitialPlayer with position := ⟨0, 0⟩ }

/-- Target fixture for C2: smoothed noise 0.05 and detectability base
5600 m, so `classSizeFactor = 5600/7000 = 0.8`, at 125 px = 5000 m from the
observer. -/
def c2Target : Ship :=
  { createInitialPrey with position := ⟨125, 0⟩, niSmooth := 0.05,
                           detectabilityBaseMeters := some 5600 }

lemma c2_distance : distance c2Player.position c2Target.position = 125 := by
  simp only [distance, c2Player, c2Target, createInitialPlayer, createInitialPrey]
  norm_num
  rw [hypot_x_zero]
  norm_num

lemma c2_sizeFactor : classSizeFactor c2Target = 0.8 := by
  simp only [classSizeFactor, c2Target, createInitialPrey]
  norm_num

/-- Witness for C2 at the concrete anchored configuration. -/
theorem C2_ambient_base_distance_witness :
    ambientSignal c2Player c2Target =
      ambientThreshold c2Params *
        (NI_CAL_AMBIENT * max 0.01 c2Target.niSmooth * classSizeFactor c2Target) ∧
    (NI_CAL_AMBIENT * max 0.01 c2Target.niSmooth * classSizeFactor c2Target = 1 →
      ambientSignal c2Player c2Target = ambientThreshold c2Params) ∧
    (NI_CAL_AMBIENT * max 0.01 c2Target.niSmooth * classSizeFactor c2Target < 1 →
      ambientSignal c2Player c2Target < ambientThreshold c2Params ∧
      computeAmbientContacts c2Player [c2Target] c2Params [] (fun _ => 0) = []) :=
  C2_ambient_base_distance c2Player c2Target c2Params [] (fun _ => 0)
    (by simp only [c2Params]; norm_num)
    (by rw [c2_distance]; norm_num)
    (by rw [c2_distance]; simp only [c2Params, PX_PER_M]; norm_num)

/-- C2 counterexample: at exactly the ambient base distance the concrete
target's signal is threshold / 5, in particular NOT equal to the threshold,
and the target is not detected — it does not sit at the detection
boundary. -/
theorem C2_counterexample :
    ambientSignal c2Player c2Target = ambientThreshold c2Params / 5 ∧
    ambientSignal c2Player c2Target ≠ ambientThreshold c2Params ∧
    computeAmbientContacts c2Player [c2Target] c2Params [] (fun _ => 0) = [] := by
  obtain ⟨h5, hlt, hnil⟩ := ambient_fifth_core c2Player c2Target c2Params [] (fun _ => 0)
    (by simp [c2Target, createInitialPrey])
    c2_sizeFactor
    (by simp only [c2Params]; norm_num)
    (by rw [c2_distance]; norm_num)
    (by rw [c2_distance]; simp only [c2Params, PX_PER_M]; norm_num)
  exact ⟨h5, ne_of_lt hlt, hnil⟩

/-! ## Claim C5 -/

/-- C5: if any obstacle rectangle intersects the segment between observer
and target, then none of the three detection channels reports a contact for
that target, regardless of the signal level. -/
theorem C5_occlusion_suppresses (player target : Ship) (params : DetectionParams)
    (obstacles : List ObstacleRect) (u : ℕ → ℝ)
    (hocc : isOccluded player.position target.position obstacles) :
    computeAmbientContacts player [target] params obstacles u = [] ∧
    computePassiveReturns player [target] params obstacles u = [] ∧
    computeActiveContacts player [target] params obstacles = [] := by
  refine ⟨?_, ?_, ?_⟩
  · simp only [computeAmbientContacts, List.enum, List.enumFrom, List.filterMap]
    rw [if_pos hocc]
  · simp only [computePassiveReturns, List.enum, List.enumFrom, List.filterMap]
    by_cases harc : isWithinArc player target (passiveArcDeg params)
    · rw [if_neg (by simpa using harc), if_pos hocc]
    · rw [if_pos (by simpa using harc)]
  · simp only [computeActiveContacts, List.filterMap]
    rw [if_pos hocc]

/-- Obstacle fixture for the C5 witness: a rectangle containing the target
position (100, 0), so it certainly intersects the observer-target
segment. -/
def c5Obstacle : ObstacleRect := ⟨90, -10, 20, 20⟩

/-- Target fixture for C5: a loud target 100 px away straight ahead. -/
def c5Target : Ship := { createInitialPrey with position := ⟨100, 0⟩, niSmooth := 1 }

/-- Witness for C5: at the concrete occluded configuration every channel
reports nothing. -/
theorem C5_occlusion_suppresses_witness :
    computeAmbientContacts c2Player [c5Target] c2Params [c5Obstacle] (fun _ => 0) = [] ∧
    computePassiveReturns c2Player [c5Target] c2Params [c5Obstacle] (fun _ => 0) = [] ∧
    computeActiveContacts c2Player [c5Target] c2Params [c5Obstacle] = [] :=
  C5_occlusion_suppresses c2Player c5Target c2Params [c5Obstacle] (fun _ => 0)
    ⟨c5Obstacle, List.mem_singleton.mpr rfl,
      Or.inr (Or.inl (by
        simp only [isPointInsideRect, c5Target, c5Obstacle, createInitialPrey]
        norm_num))⟩

/-! ## Claim C6 -/

lemma clamp_mono (v w lo hi : ℝ) (h : v ≤ w) : clamp v lo hi ≤ clamp w lo hi :=
  max_le_max (le_refl lo) (min_le_min (le_refl hi) h)

lemma sqrt2_alg (F R : ℝ) (hF : 0 < F) (hR : 0 < R) :
    F * 2 / (R * R) = Real.sqrt 2 * (F * Real.sqrt 2 / (R * R)) ∧
    F * Real.sqrt 2 / (R * R) < F * 2 / (R * R) := by
  have hs : Real.sqrt 2 * Real.sqrt 2 = 2 := Real.mul_self_sqrt (by norm_num)
  have hs0 : 0 < Real.sqrt 2 := Real.sqrt_pos.mpr (by norm_num)
  have hslt : Real.sqrt 2 < 2 := by nlinarith
  constructor
  · rw [show Real.sqrt 2 * (F * Real.sqrt 2 / (R * R)) =
        Real.sqrt 2 * Real.sqrt 2 * F / (R * R) from by ring, hs]
    ring
  · have hRR : 0 < R * R := mul_pos hR hR
    exact (div_lt_div_right hRR).mpr (by nlinarith)

/-- C6: with `maxArc = 180°` and `minArc = 30°`, for a target inside both
the 45° and the 90° passive arc, narrowing the arc from 90° to 45°
multiplies the passive signal by `sqrt 2` (DI goes from `sqrt(180/90)` to
`sqrt(180/45) = 2`), hence strictly increases it; the reported position
error bound before its random factor is correspondingly no larger, and a
target detected at 90° stays detected at 45°. -/
theorem C6_passive_directivity (player target : Ship) (P : DetectionParams)
    (hmax : P.passiveArcMaxDegrees = 180) (hmin : P.passiveArcMinDegrees = 30)
    (herr0 : 0 ≤ P.passiveMinErrorMeters)
    (herr1 : P.passiveMinErrorMeters ≤ P.passiveMaxErrorMeters)
    (harc45 : isWithinArc player target (passiveArcDeg { P with passiveArcDegrees := 45 }))
    (harc90 : isWithinArc player target (passiveArcDeg { P with passiveArcDegrees := 90 })) :
    passiveSignal player target { P with passiveArcDegrees := 45 } =
      Real.sqrt 2 * passiveSignal player target { P with passiveArcDegrees := 90 } ∧
    passiveSignal player target { P with passiveArcDegrees := 90 } <
      passiveSignal player target { P with passiveArcDegrees := 45 } ∧
    passivePosErrorPre player target { P with passiveArcDegrees := 45 } ≤
      passivePosErrorPre player target { P with passiveArcDegrees := 90 } ∧
    (passiveThreshold P ≤ passiveSignal player target { P with passiveArcDegrees := 90 } →
      passiveThreshold P ≤ passiveSignal player target { P with passiveArcDegrees := 45 }) := by
  have hDI45 : passiveDI { P with passiveArcDegrees := 45 } = 2 := by
    simp only [passiveDI, passiveArcDeg, clamp, hmax, hmin]
    norm_num
    rw [show (4 : ℝ) = 2 ^ 2 by norm_num]
    exact Real.sqrt_sq (by norm_num)
  have hDI90 : passiveDI { P with passiveArcDegrees := 90 } = Real.sqrt 2 := by
    simp only [passiveDI, passiveArcDeg, clamp, hmax, hmin]
    norm_num
  have hFpos : 0 < NI_CAL_PASSIVE * max 0.01 target.niSmooth * classSizeFactor target := by
    have h1 : (0 : ℝ) < max 0.01 target.niSmooth :=
      lt_of_lt_of_le (by norm_num) (le_max_left _ _)
    have h2 : (0 : ℝ) < classSizeFactor target := by
      simp only [classSizeFactor]
      exact lt_of_lt_of_le (by norm_num) (le_max_left _ _)
    have h3 : (0 : ℝ) < NI_CAL_PASSIVE := by simp only [NI_CAL_PASSIVE]; norm_num
    positivity
  have hRpos : 0 < max 1 (distance player.position target.position) / PX_PER_M := by
    have h1 : (0 : ℝ) < max 1 (distance player.position target.position) :=
      lt_of_lt_of_le one_pos (le_max_left _ _)
    have h2 : (0 : ℝ) < PX_PER_M := by simp only [PX_PER_M]; norm_num
    positivity
  have e45 : passiveSignal player target { P with passiveArcDegrees := 45 } =
      NI_CAL_PASSIVE * max 0.01 target.niSmooth * classSizeFactor target * 2 /
        (max 1 (distance player.position target.position) / PX_PER_M *
         (max 1 (distance player.position target.position) / PX_PER_M)) := by
    simp only [passiveSignal]
    rw [hDI45]
  have e90 : passiveSignal player target { P with passiveArcDegrees := 90 } =
      NI_CAL_PASSIVE * max 0.01 target.niSmooth * classSizeFactor target * Real.sqrt 2 /
        (max 1 (distance player.position target.position) / PX_PER_M *
         (max 1 (distance player.position target.position) / PX_PER_M)) := by
    simp only [passiveSignal]
    rw [hDI90]
  obtain ⟨halg1, halg2⟩ := sqrt2_alg
    (NI_CAL_PASSIVE * max 0.01 target.niSmooth * classSizeFactor target)
    (max 1 (distance player.position target.position) / PX_PER_M) hFpos hRpos
  have hsigeq : passiveSignal player target { P with passiveArcDegrees := 45 } =
      Real.sqrt 2 * passiveSignal player target { P with passiveArcDegrees := 90 } := by
    rw [e45, e90]
    exact halg1
  have hsiglt : passiveSignal player target { P with passiveArcDegrees := 90 } <
      passiveSignal player target { P with passiveArcDegrees := 45 } := by
    rw [e45, e90]
    exact halg2
  have hth0 : 0 < passiveThreshold P := by
    simp only [passiveThreshold]
    have h1 : (0 : ℝ) < max 1 P.passiveBaseMeters := lt_of_lt_of_le one_pos (le_max_left _ _)
    positivity
  have hth45 : passiveThreshold { P with passiveArcDegrees := 45 } = passiveThreshold P := rfl
  have hth90 : passiveThreshold { P with passiveArcDegrees := 90 } = passiveThreshold P := rfl
  have hsnr : passiveSnr player target { P with passiveArcDegrees := 90 } ≤
      passiveSnr player target { P with passiveArcDegrees := 45 } := by
    simp only [passiveSnr, hth45, hth90]
    exact max_le_max (le_refl 1) ((div_le_div_right hth0).mpr (le_of_lt hsiglt))
  have hsnr1 : (1 : ℝ) ≤ passiveSnr player target { P with passiveArcDegrees := 90 } := by
    simp only [passiveSnr]
    exact le_max_left _ _
  have hsqrt1 : (1 : ℝ) ≤ Real.sqrt (passiveSnr player target { P with passiveArcDegrees := 90 }) := by
    rw [show (1 : ℝ) = Real.sqrt 1 from Real.sqrt_one.symm]
    exact Real.sqrt_le_sqrt hsnr1
  have herrle : passivePosErrorPre player target { P with passiveArcDegrees := 45 } ≤
      passivePosErrorPre player target { P with passiveArcDegrees := 90 } := by
    simp only [passivePosErrorPre]
    apply clamp_mono
    have hb0 : 0 ≤ (P.passiveMinErrorMeters + P.passiveMaxErrorMeters) / 2 := by linarith
    have hs90 : 0 < Real.sqrt (passiveSnr player target { P with passiveArcDegrees := 90 }) :=
      lt_of_lt_of_le one_pos hsqrt1
    exact div_le_div_of_nonneg_left hb0 hs90 (Real.sqrt_le_sqrt hsnr)
  refine ⟨hsigeq, hsiglt, herrle, fun h => le_trans h (le_of_lt hsiglt)⟩

/-- A target straight ahead of a heading-0 observer is inside every
nonnegative arc. -/
lemma within_arc_straight_ahead (source target : Ship) (arcDegrees : ℝ)
    (hhead : source.headingRadians = 0)
    (hy : target.position.y - source.position.y = 0)
    (hx : 0 < target.position.x - source.position.x)
    (harc : 0 ≤ arcDegrees) :
    isWithinArc source target arcDegrees := by
  simp only [isWithinArc, hy, hhead]
  have h1 : atan2 0 (target.position.x - source.position.x) = 0 := by
    unfold atan2
    rw [show (⟨target.position.x - source.position.x, 0⟩ : ℂ) =
        ((target.position.x - source.position.x : ℝ) : ℂ) from by
      apply Complex.ext <;> simp]
    exact Complex.arg_ofReal_of_nonneg (le_of_lt hx)
  rw [h1, sub_zero, Real.sin_zero, Real.cos_zero]
  have h2 : atan2 0 1 = 0 := by
    unfold atan2
    rw [show (⟨1, 0⟩ : ℂ) = 1 from by apply Complex.ext <;> simp]
    exact Complex.arg_one
  rw [h2, abs_zero]
  apply div_nonneg (div_nonneg (mul_nonneg harc Real.pi_pos.le) (by norm_num)) (by norm_num)

/-- Target fixture for the C6 witness: noise 0.3, size factor 1, straight
ahead at 250 px = 10000 m. -/
def c6Target : Ship := { createInitialPrey with position := ⟨250, 0⟩, niSmooth := 0.3 }

/-- Witness for C6 at a concrete in-arc configuration with the initial scan
parameters. -/
theorem C6_passive_directivity_witness :
    passiveSignal c2Player c6Target { c2Params with passiveArcDegrees := 45 } =
      Real.sqrt 2 * passiveSignal c2Player c6Target { c2Params with passiveArcDegrees := 90 } ∧
    passiveSignal c2Player c6Target { c2Params with passiveArcDegrees := 90 } <
      passiveSignal c2Player c6Target { c2Params with passiveArcDegrees := 45 } ∧
    passivePosErrorPre c2Player c6Target { c2Params with passiveArcDegrees := 45 } ≤
      passivePosErrorPre c2Player c6Target { c2Params with passiveArcDegrees := 90 } ∧
    (passiveThreshold c2Params ≤
        passiveSignal c2Player c6Target { c2Params with passiveArcDegrees := 90 } →
      passiveThreshold c2Params ≤
        passiveSignal c2Player c6Target { c2Params with passiveArcDegrees := 45 }) :=
  C6_passive_directivity c2Player c6Target c2Params
    (by simp [c2Params]) (by simp [c2Params])
    (by simp only [c2Params]; norm_num) (by simp only [c2Params]; norm_num)
    (within_arc_straight_ahead _ _ _
      (by simp [c2Player, createInitialPlayer])
      (by simp [c2Player, c6Target, createInitialPlayer, createInitialPrey])
      (by simp [c2Player, c6Target, createInitialPlayer, createInitialPrey])
      (by simp only [passiveArcDeg, clamp, c2Params]; norm_num))
    (within_arc_straight_ahead _ _ _
      (by simp [c2Player, createInitialPlayer])
      (by simp [c2Player, c6Target, createInitialPlayer, createInitialPrey])
      (by simp [c2Player, c6Target, createInitialPlayer, createInitialPrey])
      (by simp only [passiveArcDeg, clamp, c2Params]; norm_num))

/-! ## Claim C3 -/

/-- C3: if a previous ping fired at time `t` (with `0 < t`: pings fire at
positive `performance.now()` timestamps), then on every tick with
`now - t ≤ activeCooldownMs` a queued ping is not consumed — no reveal
bubble is pushed (the list only undergoes TTL fading), no fresh active
contacts are computed (only the TTL decay of the previous ones),
`lastActivePingAt` stays `some t` and the queue flag stays set — and once
`now - t` exceeds the cooldown a queued ping does fire, resetting
`lastActivePingAt`. -/
theorem C3_active_ping_cooldown (queued : Bool) (player prey : Ship) (targets : List Ship)
    (params : DetectionParams) (obstacles : List ObstacleRect) (scan : ScanState)
    (det : DetectionSlice) (now t : ℝ)
    (hlast : scan.lastActivePingAt = some t) (ht : 0 < t)
    (hcd : now - t ≤ scan.activeCooldownMs) :
    (activePingStep queued player prey targets params obstacles scan det now).lastActivePingAt =
      some t ∧
    (activePingStep queued player prey targets params obstacles scan det now).revealBubbles =
      det.revealBubbles.filter (fun b => decide (now - b.createdAt < b.ttlMs)) ∧
    ((activePingStep queued player prey targets params obstacles scan det now).activeContacts =
        det.activeContacts ∨
      (activePingStep queued player prey targets params obstacles scan det now).activeContacts =
        []) ∧
    (activePingStep queued player prey targets params obstacles scan det now).pingQueuedAfter =
      queued ∧
    (∀ now2 : ℝ, scan.activeCooldownMs < now2 - t →
      (activePingStep true player prey targets params obstacles scan det now2).lastActivePingAt =
        some now2) := by
  have hcool : inCooldownAt scan.lastActivePingAt now scan.activeCooldownMs := by
    rw [hlast]
    exact ⟨ne_of_gt ht, hcd⟩
  have hnofire :
      ¬ (queued = true ∧ ¬ inCooldownAt scan.lastActivePingAt now scan.activeCooldownMs) :=
    fun h => h.2 hcool
  have hlater : ∀ now2 : ℝ, scan.activeCooldownMs < now2 - t →
      (activePingStep true player prey targets params obstacles scan det now2).lastActivePingAt =
        some now2 := by
    intro now2 h2
    have hfire :
        (True ∧ ¬ inCooldownAt scan.lastActivePingAt now2 scan.activeCooldownMs) := by
      refine ⟨trivial, ?_⟩
      rw [hlast]
      intro hc
      linarith [hc.2]
    simp only [activePingStep, if_pos hfire]
  refine ⟨?_, ?_, ?_, ?_, hlater⟩
  · simp only [activePingStep, if_neg hnofire]
    exact hlast
  · simp only [activePingStep, if_neg hnofire]
  · simp only [activePingStep, if_neg hnofire]
    by_cases he : jsExpired det.activeContactsExpiresAtMs now
    · right; rw [if_pos he]
    · left; rw [if_neg he]
  · simp only [activePingStep, if_neg hnofire]

/-- Witness for C3: ping fired at t = 1000 ms with a 5000 ms cooldown,
observed at now = 3000 ms (inside the cooldown window). -/
theorem C3_active_ping_cooldown_witness :
    (activePingStep true createInitialPlayer createInitialPrey [createInitialPrey] c2Params []
        { initialScan with lastActivePingAt := some 1000 }
        ⟨[], [], none⟩ 3000).lastActivePingAt = some 1000 ∧
    (activePingStep true createInitialPlayer createInitialPrey [createInitialPrey] c2Params []
        { initialScan with lastActivePingAt := some 1000 }
        ⟨[], [], none⟩ 3000).revealBubbles =
      ([] : List RevealBubble).filter (fun b => decide (3000 - b.createdAt < b.ttlMs)) ∧
    ((activePingStep true createInitialPlayer createInitialPrey [createInitialPrey] c2Params []
        { initialScan with lastActivePingAt := some 1000 }
        ⟨[], [], none⟩ 3000).activeContacts = [] ∨
      (activePingStep true createInitialPlayer createInitialPrey [createInitialPrey] c2Params []
        { initialScan with lastActivePingAt := some 1000 }
        ⟨[], [], none⟩ 3000).activeContacts = []) ∧
    (activePingStep true createInitialPlayer createInitialPrey [createInitialPrey] c2Params []
        { initialScan with lastActivePingAt := some 1000 }
        ⟨[], [], none⟩ 3000).pingQueuedAfter = true ∧
    (∀ now2 : ℝ, ({ initialScan with lastActivePingAt := some 1000 } : ScanState).activeCooldownMs
        < now2 - 1000 →
      (activePingStep true createInitialPlayer createInitialPrey [createInitialPrey] c2Params []
          { initialScan with lastActivePingAt := some 1000 }
          ⟨[], [], none⟩ now2).lastActivePingAt = some now2) :=
  C3_active_ping_cooldown true createInitialPlayer createInitialPrey [createInitialPrey]
    c2Params [] { initialScan with lastActivePingAt := some 1000 } ⟨[], [], none⟩ 3000 1000
    rfl (by norm_num) (by simp [initialScan]; norm_num)

/-! ## Claim C7 -/

lemma hypot_pos (x y : ℝ) (h : ¬ (x = 0 ∧ y = 0)) : 0 < hypot x y := by
  rcases lt_or_eq_of_le (hypot_nonneg x y) with hlt | heq
  · exact hlt
  · exfalso
    apply h
    have h0 : Real.sqrt (x ^ 2 + y ^ 2) = 0 := heq.symm
    have hnn : (0 : ℝ) ≤ x ^ 2 + y ^ 2 := by positivity
    have hsum : x ^ 2 + y ^ 2 = 0 := (Real.sqrt_eq_zero hnn).mp h0
    constructor <;> nlinarith [sq_nonneg x, sq_nonneg y]

/-- Centroid of an environment zone (the point the hide branch steers
toward, for `zones.headI`). -/
def zoneCentroid (z : EnvironmentZone) : Vec2 := ⟨z.x + z.width / 2, z.y + z.height / 2⟩

/-- Evaluation of `updatePreyAI` in the hide branch with no obstacles: the
final velocity is the 0.6-throttled unit vector toward the centroid of the
FIRST zone of the list, scaled by the drag factor. -/
lemma hide_velocity_eval (prey : Ship) (zones : List EnvironmentZone)
    (dtMs nowMs rndEvade unstickUntil t : ℝ)
    (hping : prey.lastPingDetectedAt = some t) (ht0 : t ≠ 0) (ht4 : nowMs - t < 4000)
    (hsupp : environmentSuppressionAt prey.position zones < 0.3)
    (hdt : 1.6 * (dtMs / 1000) < 1)
    (hne : ¬ (zones.headI.x + zones.headI.width / 2 - prey.position.x = 0 ∧
              zones.headI.y + zones.headI.height / 2 - prey.position.y = 0)) :
    (updatePreyAI prey zones [] dtMs nowMs rndEvade unstickUntil).ship.velocity =
      ⟨(zones.headI.x + zones.headI.width / 2 - prey.position.x) /
          hypot (zones.headI.x + zones.headI.width / 2 - prey.position.x)
                (zones.headI.y + zones.headI.height / 2 - prey.position.y) *
          (220 * 0.6) * (1 - 1.6 * (dtMs / 1000)),
        (zones.headI.y + zones.headI.height / 2 - prey.position.y) /
          hypot (zones.headI.x + zones.headI.width / 2 - prey.position.x)
                (zones.headI.y + zones.headI.height / 2 - prey.position.y) *
          (220 * 0.6) * (1 - 1.6 * (dtMs / 1000))⟩ := by
  have hS0 : 0 < hypot (zones.headI.x + zones.headI.width / 2 - prey.position.x)
      (zones.headI.y + zones.headI.height / 2 - prey.position.y) := hypot_pos _ _ hne
  have hcond1 : (t ≠ 0 ∧ nowMs - t < 4000) := ⟨ht0, ht4⟩
  have hintent : preyApplyIntent prey zones nowMs rndEvade =
      { prey with
        velocity := ⟨(zones.headI.x + zones.headI.width / 2 - prey.position.x) /
            hypot (zones.headI.x + zones.headI.width / 2 - prey.position.x)
                  (zones.headI.y + zones.headI.height / 2 - prey.position.y) * (220 * 0.6),
          (zones.headI.y + zones.headI.height / 2 - prey.position.y) /
            hypot (zones.headI.x + zones.headI.width / 2 - prey.position.x)
                  (zones.headI.y + zones.headI.height / 2 - prey.position.y) * (220 * 0.6)⟩
        suppression := 0.5 } := by
    simp only [preyApplyIntent, pingRecentlyFor, hping, if_pos hcond1, if_pos hsupp,
      if_neg (ne_of_gt hS0)]
  have hmag : hypot
      ((zones.headI.x + zones.headI.width / 2 - prey.position.x) /
        hypot (zones.headI.x + zones.headI.width / 2 - prey.position.x)
              (zones.headI.y + zones.headI.height / 2 - prey.position.y) * (220 * 0.6))
      ((zones.headI.y + zones.headI.height / 2 - prey.position.y) /
        hypot (zones.headI.x + zones.headI.width / 2 - prey.position.x)
              (zones.headI.y + zones.headI.height / 2 - prey.position.y) * (220 * 0.6)) =
      132 := by
    rw [show (zones.headI.x + zones.headI.width / 2 - prey.position.x) /
        hypot (zones.headI.x + zones.headI.width / 2 - prey.position.x)
              (zones.headI.y + zones.headI.height / 2 - prey.position.y) * (220 * 0.6) =
        (220 * 0.6 / hypot (zones.headI.x + zones.headI.width / 2 - prey.position.x)
              (zones.headI.y + zones.headI.height / 2 - prey.position.y)) *
          (zones.headI.x + zones.headI.width / 2 - prey.position.x) from by ring,
      show (zones.headI.y + zones.headI.height / 2 - prey.position.y) /
        hypot (zones.headI.x + zones.headI.width / 2 - prey.position.x)
              (zones.headI.y + zones.headI.height / 2 - prey.position.y) * (220 * 0.6) =
        (220 * 0.6 / hypot (zones.headI.x + zones.headI.width / 2 - prey.position.x)
              (zones.headI.y + zones.headI.height / 2 - prey.position.y)) *
          (zones.headI.y + zones.headI.height / 2 - prey.position.y) from by ring,
      hypot_mul, abs_of_pos (by positivity)]
    rw [div_mul_cancel₀ _ (ne_of_gt hS0)]
    norm_num
  have hno5 : ¬ ((132 : ℝ) < 5 ∧ nowMs ≥ unstickUntil) := by
    intro hc
    linarith [hc.1]
  have hnoclamp : ¬ ((132 : ℝ) > 220) := by norm_num
  simp only [updatePreyAI, hintent, preyRepelVelocity, repulsionFromObstacles,
    List.foldl_nil, apply_ite Ship.velocity, ite_self, zero_mul, add_zero,
    preyUnstickVelocity, preyDragAndClamp, hmag, if_neg hno5, if_neg hnoclamp]
  simp only [Vec2.mk.injEq]
  constructor <;> ring

/-- C7 (amended): when the hide intent is active (pinged within 4 s,
environment suppression below 0.3) and there are no obstacles, the AI update
sets the prey's velocity to a positive multiple of the vector toward the
centroid of the FIRST configured zone (`zones[0]`), regardless of which zone
is nearest. -/
theorem C7_hide_first_zone (prey : Ship) (zones : List EnvironmentZone)
    (dtMs nowMs rndEvade unstickUntil t : ℝ)
    (hping : prey.lastPingDetectedAt = some t) (ht0 : t ≠ 0) (ht4 : nowMs - t < 4000)
    (hsupp : environmentSuppressionAt prey.position zones < 0.3)
    (hdt : 1.6 * (dtMs / 1000) < 1)
    (hne : ¬ ((zoneCentroid zones.headI).x - prey.position.x = 0 ∧
              (zoneCentroid zones.headI).y - prey.position.y = 0)) :
    ∃ c : ℝ, 0 < c ∧
      (updatePreyAI prey zones [] dtMs nowMs rndEvade unstickUntil).ship.velocity.x =
        c * ((zoneCentroid zones.headI).x - prey.position.x) ∧
      (updatePreyAI prey zones [] dtMs nowMs rndEvade unstickUntil).ship.velocity.y =
        c * ((zoneCentroid zones.headI).y - prey.position.y) := by
  have hne' : ¬ (zones.headI.x + zones.headI.width / 2 - prey.position.x = 0 ∧
      zones.headI.y + zones.headI.height / 2 - prey.position.y = 0) := by
    simpa [zoneCentroid] using hne
  have hS0 : 0 < hypot (zones.headI.x + zones.headI.width / 2 - prey.position.x)
      (zones.headI.y + zones.headI.height / 2 - prey.position.y) := hypot_pos _ _ hne'
  refine ⟨220 * 0.6 * (1 - 1.6 * (dtMs / 1000)) /
      hypot (zones.headI.x + zones.headI.width / 2 - prey.position.x)
            (zones.headI.y + zones.headI.height / 2 - prey.position.y),
    div_pos (mul_pos (by norm_num) (by linarith)) hS0, ?_, ?_⟩ <;>
  · rw [hide_velocity_eval prey zones dtMs nowMs rndEvade unstickUntil t hping ht0 ht4
      hsupp hdt hne']
    simp only [zoneCentroid]
    ring

/-- First zone fixture for C7: a far-away zone whose centroid is (50, 50). -/
def c7ZoneA : EnvironmentZone := ⟨0, 0, 100, 100, 0.1⟩

/-- Second zone fixture for C7: a zone whose centroid (1050, 110) is 60 px
from the prey — the nearest zone. -/
def c7ZoneB : EnvironmentZone := ⟨1000, 60, 100, 100, 0.2⟩

/-- Zone list fixture for C7. -/
def c7Zones : List EnvironmentZone := [c7ZoneA, c7ZoneB]

/-- Prey fixture for C7: pinged at t = 100 ms, outside both zones
(suppression 0), at (1050, 50). -/
def c7Prey : Ship :=
  { createInitialPrey with position := ⟨1050, 50⟩, lastPingDetectedAt := some 100 }

/-- Witness for C7 at the concrete hide scenario. -/
theorem C7_hide_first_zone_witness :
    ∃ c : ℝ, 0 < c ∧
      (updatePreyAI c7Prey c7Zones [] 16 450 0.7 0).ship.velocity.x =
        c * ((zoneCentroid c7Zones.headI).x - c7Prey.position.x) ∧
      (updatePreyAI c7Prey c7Zones [] 16 450 0.7 0).ship.velocity.y =
        c * ((zoneCentroid c7Zones.headI).y - c7Prey.position.y) :=
  C7_hide_first_zone c7Prey c7Zones 16 450 0.7 0 100
    (by simp [c7Prey, createInitialPrey])
    (by norm_num) (by norm_num)
    (by
      simp only [environmentSuppressionAt, isPointInsideZone, c7Zones, c7ZoneA, c7ZoneB,
        c7Prey, createInitialPrey, List.foldl]
      norm_num)
    (by norm_num)
    (by
      simp only [zoneCentroid, c7Zones, c7ZoneA, c7Prey, createInitialPrey, List.headI]
      norm_num)

/-- C7 counterexample: in the concrete hide scenario the nearest zone is the
second one, whose centroid lies straight above the prey (x offset 0), yet
the AI's velocity has a strictly negative x component: it steers toward the
centroid of `zones[0]`, not of the nearest zone. -/
theorem C7_counterexample :
    distance c7Prey.position (zoneCentroid c7ZoneB) <
      distance c7Prey.position (zoneCentroid c7ZoneA) ∧
    (zoneCentroid c7ZoneB).x - c7Prey.position.x = 0 ∧
    (updatePreyAI c7Prey c7Zones [] 16 450 0.7 0).ship.velocity.x < 0 := by
  refine ⟨?_, ?_, ?_⟩
  · simp only [distance, zoneCentroid, c7ZoneA, c7ZoneB, c7Prey, createInitialPrey]
    norm_num
    rw [hypot_zero_y, hypot_x_zero]
    norm_num
  · simp only [zoneCentroid, c7ZoneB, c7Prey, createInitialPrey]
    norm_num
  · rw [hide_velocity_eval c7Prey c7Zones 16 450 0.7 0 100
      (by simp [c7Prey, createInitialPrey])
      (by norm_num) (by norm_num)
      (by
        simp only [environmentSuppressionAt, isPointInsideZone, c7Zones, c7ZoneA, c7ZoneB,
          c7Prey, createInitialPrey, List.foldl]
        norm_num)
      (by norm_num)
      (by
        simp only [c7Zones, c7ZoneA, c7Prey, createInitialPrey, List.headI]
        norm_num)]
    simp only [c7Zones, c7ZoneA, c7Prey, createInitialPrey, List.headI]
    norm_num
    rw [hypot_x_zero]
    norm_num

end StealthSim
